import Mathlib

/-!
# SmartAgriSense: recommendation and monitoring services

A shallow embedding of `src/api/services/recommendation.service.js`,
`src/api/services/monitoring.service.js` and `src/api/services/rule-engine.service.js`.

Modelling conventions, fixed once for the whole development:

* JavaScript numbers that carry measurements (humidity, temperature, pH) are exact
  rationals `ℚ`; `NaN`, the infinities and rounding error of IEEE doubles are not represented.
  Priorities, counts and millisecond timestamps are integers.
* `Math.round x` is `⌊x + 0.5⌋` (ties go towards `+∞`).
* An object literal used as a dictionary (`cropKnowledge`, `typePriority`, `grouped`) is a
  finite map over its own keys; keys that would reach a property inherited from
  `Object.prototype`, and keys that are array indices (which `Object.keys` lists first), are
  not represented.
* `Array.prototype.sort` with a comparison function is the stable sort that ECMAScript
  prescribes for a consistent comparator: insertion of each element in front of the first
  element it does not have to follow.
* A property that may be `undefined` is an `Option`.
-/

namespace SmartAgriSense

/-! ## Data model -/

/-- An optimal band `{ min, max }` of the crop knowledge base. -/
structure Range where
  min : ℚ
  max : ℚ
  deriving DecidableEq

/-- One entry of `growthStages`: `name: { duration, water }`. -/
structure GrowthStage where
  name : String
  duration : ℚ
  water : ℚ
  deriving DecidableEq

/-- One crop profile of `this.cropKnowledge`. -/
structure CropKnowledge where
  optimalHumidity : Range
  optimalTemperature : Range
  optimalPH : Range
  waterRequirement : ℚ
  growthStages : List GrowthStage
  deriving DecidableEq

/-- A sensor reading (`models/SensorData.js`); `timestamp` is in milliseconds. The optional
`battery_level` is read by the rule engine only. -/
structure SensorData where
  sensor_id : String
  humidity : ℚ
  temperature : ℚ
  soil_ph : ℚ
  timestamp : Int := 0
  battery_level : Option ℚ := none
  deriving DecidableEq

/-! ## Crop knowledge base (constructor of `RecommendationService`) -/

/-- The entry `rice` of `this.cropKnowledge`. -/
def riceKnowledge : CropKnowledge where
  optimalHumidity := { min := 60, max := 80 }
  optimalTemperature := { min := 25, max := 35 }
  optimalPH := { min := 5.5, max := 6.5 }
  waterRequirement := 1200
  growthStages :=
    [ { name := "germination", duration := 7, water := 30 },
      { name := "vegetative", duration := 30, water := 40 },
      { name := "reproductive", duration := 35, water := 50 },
      { name := "ripening", duration := 30, water := 20 } ]

/-- The entry `maize` of `this.cropKnowledge`. -/
def maizeKnowledge : CropKnowledge where
  optimalHumidity := { min := 40, max := 60 }
  optimalTemperature := { min := 20, max := 30 }
  optimalPH := { min := 5.8, max := 7.0 }
  waterRequirement := 500
  growthStages :=
    [ { name := "emergence", duration := 10, water := 20 },
      { name := "vegetative", duration := 40, water := 60 },
      { name := "flowering", duration := 20, water := 70 },
      { name := "grain_fill", duration := 30, water := 50 } ]

/-- The entry `tomatoes` of `this.cropKnowledge`. -/
def tomatoesKnowledge : CropKnowledge where
  optimalHumidity := { min := 50, max := 70 }
  optimalTemperature := { min := 18, max := 28 }
  optimalPH := { min := 6.0, max := 6.8 }
  waterRequirement := 400
  growthStages :=
    [ { name := "seedling", duration := 20, water := 30 },
      { name := "flowering", duration := 30, water := 50 },
      { name := "fruiting", duration := 40, water := 60 } ]

/-- The lookup `this.cropKnowledge[cropType]`; `none` is `undefined`. -/
def cropKnowledge (cropType : String) : Option CropKnowledge :=
  if cropType = "rice" then some riceKnowledge
  else if cropType = "maize" then some maizeKnowledge
  else if cropType = "tomatoes" then some tomatoesKnowledge
  else none

/-! ## Health score -/

/-- The function `Math.round` on exact numbers: nearest integer, ties towards `+∞`. -/
def mathRound (x : ℚ) : Int := ⌊x + 0.5⌋

/-- A value held in the free-form parts of a recommendation: a number, a string, the string
`q.toFixed(digits)` of a number, or `undefined`. -/
inductive JSValue where
  | num (q : ℚ)
  | str (s : String)
  | fixed (digits : Nat) (q : ℚ)
  | undefined
  deriving DecidableEq

/-- The value of a numeric property that may be `undefined`. -/
def JSValue.ofOption (x : Option ℚ) : JSValue :=
  match x with
  | some q => .num q
  | none => .undefined

/-- The number `Number(x.toFixed(digits))`: `x` rounded to `digits` decimals, ties away from
zero. -/
def toFixed (digits : Nat) (x : ℚ) : ℚ :=
  if x < 0 then -((⌊-x * 10 ^ digits + 0.5⌋ : Int) : ℚ) / 10 ^ digits
  else ((⌊x * 10 ^ digits + 0.5⌋ : Int) : ℚ) / 10 ^ digits

/-- The number a value converts to when it is compared with a number; `none` is `NaN`, and
a string other than a `toFixed` result is not converted in this model. -/
def JSValue.toNumber (v : JSValue) : Option ℚ :=
  match v with
  | .num q => some q
  | .fixed digits q => some (toFixed digits q)
  | .str _ => none
  | .undefined => none

/-- A recommendation object. `message` and `action` list the parts of their template
literal, `data` the entries of the `data` object. The fields `sensorId`, `count` and `sensors`
are `undefined` (`none`) on every object literal the analyses build; `count` and `sensors`
are set by `aggregateRecommendations`, `sensorId` is read there. -/
structure Recommendation where
  type : String
  category : String
  title : String
  message : List JSValue
  action : List JSValue
  priority : Option Int
  data : List (String × JSValue)
  sensorId : Option String := none
  count : Option Nat := none
  sensors : Option (List (Option String)) := none
  deriving DecidableEq

/-- The method `arr.sort(compareFn)`: a stable sort that puts `a` in front of `b` when
`compareFn(a, b) ≤ 0`. A comparator result of `NaN` is read as `+0` by the sort, so
comparators return `0` in that case. -/
def jsSort {α : Type} (compareFn : α → α → Int) (arr : List α) : List α :=
  arr.insertionSort (fun a b => compareFn a b ≤ 0)

/-- The table `typePriority = { critical: 3, warning: 2, info: 1 }`. -/
def typePriority (type : String) : Option Int :=
  if type = "critical" then some 3
  else if type = "warning" then some 2
  else if type = "info" then some 1
  else none

/-- The type rank `typePriority[r.type] || 0`. -/
def typeRank (r : Recommendation) : Int := (typePriority r.type).getD 0

/-- The numeric priority `r.priority || 0`. -/
def numericPriority (r : Recommendation) : Int := r.priority.getD 0

/-- The comparison function of `prioritizeRecommendations`. -/
def prioritizeCompare (a b : Recommendation) : Int :=
  let aType := typeRank a
  let bType := typeRank b
  if aType ≠ bType then bType - aType
  else numericPriority b - numericPriority a

/-- The method `prioritizeRecommendations(recommendations)`. -/
def prioritizeRecommendations (recommendations : List Recommendation) : List Recommendation :=
  jsSort prioritizeCompare recommendations

/-- The type rank in the words of the specification: critical 3, warning 2, info 1, any
other type 0. -/
def specRank (r : Recommendation) : Int :=
  if r.type = "critical" then 3
  else if r.type = "warning" then 2
  else if r.type = "info" then 1
  else 0

/-- The priority in the words of the specification: a missing priority counts as 0. -/
def specPriority (r : Recommendation) : Int :=
  match r.priority with
  | some n => n
  | none => 0

/-- The order of the specification on two recommendations, `a` before `b`: a higher type
rank, or the same type rank and a priority that is not lower. -/
def priorityOrdered (a b : Recommendation) : Prop :=
  specRank a > specRank b ∨ (specRank a = specRank b ∧ specPriority a ≥ specPriority b)

/-- The sort key of a recommendation in the words of the specification: type rank and
numeric priority. -/
def sortKey (r : Recommendation) : Int × Int := (specRank r, specPriority r)

/-! ## Humidity analysis -/

/-- One day of the forecast, with the fields the recommendation service reads. -/
structure ForecastDay where
  day : String
  rain_chance : Option ℚ
  rain_volume : Option ℚ
  deriving DecidableEq

/-- The method `analyzeHumidity(currentHumidity, optimalRange, forecast)`. -/
def analyzeHumidity (currentHumidity : ℚ) (optimalRange : Range)
    (forecast : List ForecastDay) : List Recommendation :=
  let nextDayRain : ℚ := ((forecast.get? 1).bind (fun day => day.rain_chance)).getD 0
  if currentHumidity < optimalRange.min * 0.7 then
    -- Très sec
    [{ type := "critical"
       category := "irrigation"
       title := "Sécheresse critique"
       message := [.str "Humidité extrêmement basse (", .num currentHumidity,
         .str "%). Sol très sec."]
       action := [.str "Irrigation intensive immédiate"]
       priority := some 10
       data := [("humidity", .num currentHumidity), ("threshold", .num optimalRange.min)] }]
  else if currentHumidity < optimalRange.min then
    -- Sec
    if nextDayRain > 50 then
      [{ type := "info"
         category := "irrigation"
         title := "Attendre la pluie"
         message := [.str "Humidité basse (", .num currentHumidity,
           .str "%) mais pluie prévue demain (", .num nextDayRain, .str "%)."]
         action := [.str "Reporter irrigation de 24h"]
         priority := some 3
         data := [("humidity", .num currentHumidity), ("rainChance", .num nextDayRain)] }]
    else
      [{ type := "warning"
         category := "irrigation"
         title := "Irrigation nécessaire"
         message := [.str "Humidité basse (", .num currentHumidity, .str "%)."]
         action := [.str "Programmer irrigation modérée"]
         priority := some 7
         data := [("humidity", .num currentHumidity), ("optimalMin", .num optimalRange.min)] }]
  else if currentHumidity > optimalRange.max * 1.3 then
    -- Très humide
    [{ type := "critical"
       category := "drainage"
       title := "Excès d'eau"
       message := [.str "Humidité excessive (", .num currentHumidity,
         .str "%). Risque de pourriture racinaire."]
       action := [.str "Améliorer drainage immédiatement"]
       priority := some 9
       data := [("humidity", .num currentHumidity), ("threshold", .num optimalRange.max)] }]
  else []

/-! ## Aggregation across sensors -/

/-- The object `{ sensorId, readings, analysis, summary }` that `generateFarmerReport` builds
for one sensor, with the fields that `aggregateRecommendations` can reach. -/
structure SensorAnalysis where
  sensorId : String
  readings : Nat
  analysis : Option (List Recommendation)
  deriving DecidableEq

/-- The list `sensorAnalyses.flatMap(s => s?.analysis || [])`; a `null` entry is `none`. -/
def allRecommendations (sensorAnalyses : List (Option SensorAnalysis)) : List Recommendation :=
  sensorAnalyses.flatMap (fun s => (s.bind (fun a => a.analysis)).getD [])

/-- One step of the grouping loop on the object `grouped`, kept as the list of its entries in
insertion order: `if (!grouped[c]) grouped[c] = []; grouped[c].push(rec)`. -/
def groupPush (grouped : List (String × List Recommendation)) (rec : Recommendation) :
    List (String × List Recommendation) :=
  match grouped with
  | [] => [(rec.category, [rec])]
  | (category, recs) :: rest =>
    if category = rec.category then (category, recs ++ [rec]) :: rest
    else (category, recs) :: groupPush rest rec

/-- The comparison function `(a, b) => b.priority - a.priority`; the difference is `NaN`
when a priority is missing, which the sort reads as `+0`. -/
def aggregateCompare (a b : Recommendation) : Int :=
  match b.priority, a.priority with
  | some pb, some pa => pb - pa
  | _, _ => 0

/-- The filter `arr.filter((v, i, a) => a.indexOf(v) === i)`. -/
def keepFirstOccurrences {β : Type} [DecidableEq β] (arr : List β) : List β :=
  (arr.enum.filter (fun iv => decide (arr.indexOf iv.2 = iv.1))).map Prod.snd

/-- The body of the loop over `Object.keys(grouped)`: the entry pushed for one category, if
any. The sort is in place, so `count` and `sensors` read the sorted array. -/
def aggregateEntry (categoryRecs : List Recommendation) : Option Recommendation :=
  let categoryRecs := jsSort aggregateCompare categoryRecs
  match categoryRecs.head? with
  | some highestPriority =>
    some { highestPriority with
      count := some categoryRecs.length
      sensors := some (keepFirstOccurrences (categoryRecs.map (fun r => r.sensorId))) }
  | none => none

/-- The method `aggregateRecommendations(sensorAnalyses)`. -/
def aggregateRecommendations (sensorAnalyses : List (Option SensorAnalysis)) :
    List Recommendation :=
  let allRecs := allRecommendations sensorAnalyses
  -- Regrouper par catégorie
  let grouped := allRecs.foldl groupPush []
  -- Garder les plus prioritaires par catégorie
  let aggregated := grouped.filterMap (fun entry => aggregateEntry entry.2)
  jsSort aggregateCompare aggregated

/-- The recommendations of category `c` among `l`, in the order of `l`. -/
def ofCategory (c : String) (l : List Recommendation) : List Recommendation :=
  l.filter (fun r => decide (r.category = c))

/-- The state of the grouping loop after the recommendations `l`: one entry per category
met, holding the recommendations of that category in the order met. -/
def Grouped (grouped : List (String × List Recommendation)) (l : List Recommendation) : Prop :=
  (grouped.map Prod.fst).Nodup ∧
  (∀ entry ∈ grouped, entry.2 = ofCategory entry.1 l ∧ entry.2 ≠ []) ∧
  (∀ r ∈ l, r.category ∈ grouped.map Prod.fst)

/-- Two sensors, `S1` and `S2`, each with the analysis of a humidity of 20 under the maize
profile and an empty forecast, as `generateFarmerReport` hands them over. -/
def twoDrySensors : List (Option SensorAnalysis) :=
  [some { sensorId := "S1", readings := 1,
          analysis := some (analyzeHumidity 20 maizeKnowledge.optimalHumidity []) },
   some { sensorId := "S2", readings := 1,
          analysis := some (analyzeHumidity 20 maizeKnowledge.optimalHumidity []) }]

/-! ## Monitoring service (`monitoring.service.js`) -/

/-- The record `this.thresholds` of `MonitoringService`. -/
structure Thresholds where
  humidity_critical : ℚ
  humidity_low : ℚ
  temperature_high : ℚ
  temperature_critical : ℚ
  ph_low : ℚ
  ph_high : ℚ

/-- The values of `this.thresholds` set by the constructor. -/
def thresholds : Thresholds where
  humidity_critical := 30
  humidity_low := 40
  temperature_high := 38
  temperature_critical := 40
  ph_low := 5.5
  ph_high := 7.5

/-- The constant `this.cooldownDuration`, in milliseconds. -/
def cooldownDuration : Int := 30 * 60 * 1000

/-- An alert document, with the fields that `createAlert` sets. -/
structure Alert where
  sensor_id : String
  type : String
  severity : String
  message : List JSValue
  deriving DecidableEq

/-- The method `createAlert(alertData)`; saving the document is assumed to succeed. -/
def createAlert (sensor_id type severity : String) (message : List JSValue) : Alert :=
  { sensor_id := sensor_id, type := type, severity := severity, message := message }

/-- The outcome of one call of `checkAndAlert`: the list it returns, the alert it hands to
`sendBulkSMS` (if any), and the map `this.alertCooldown` after the call. -/
structure CheckOutcome where
  alerts : List Alert
  sms : Option Alert
  alertCooldown : String → Option Int

/-- The condition `lastAlert && Date.now() - lastAlert < this.cooldownDuration`; a
recorded time of `0` is falsy, like an absent one. -/
def cooldownActive (lastAlert : Option Int) (now : Int) : Bool :=
  match lastAlert with
  | some last => decide (last ≠ 0 ∧ now - last < cooldownDuration)
  | none => false

/-- The alerts that `checkAndAlert` creates and pushes, in order, once past the cooldown
check: critical humidity, critical temperature, pH warning. -/
def collectAlerts (sensorData : SensorData) : List Alert :=
  let alerts : List Alert := []
  -- Vérifications critiques
  let alerts :=
    if sensorData.humidity < thresholds.humidity_critical then
      alerts ++ [createAlert sensorData.sensor_id "humidity" "critical"
        [.str "Humidité critique: ", .num sensorData.humidity, .str "%"]]
    else alerts
  let alerts :=
    if sensorData.temperature > thresholds.temperature_critical then
      alerts ++ [createAlert sensorData.sensor_id "temperature" "critical"
        [.str "Température critique: ", .num sensorData.temperature, .str "°C"]]
    else alerts
  let alerts :=
    if sensorData.soil_ph < thresholds.ph_low ∨ sensorData.soil_ph > thresholds.ph_high then
      alerts ++ [createAlert sensorData.sensor_id "ph" "warning"
        [.str "pH anormal: ", .num sensorData.soil_ph]]
    else alerts
  alerts

/-- The method `checkAndAlert(sensorData)` as a step on the map `this.alertCooldown`.
`now` is the value of `Date.now()` at the cooldown check, `nowSet` its value when the
cooldown is recorded. Persistence and SMS sending are assumed to succeed. -/
def checkAndAlert (alertCooldown : String → Option Int) (now nowSet : Int)
    (sensorData : SensorData) : CheckOutcome :=
  -- Check si cooldown actif
  let lastAlert := alertCooldown sensorData.sensor_id
  if cooldownActive lastAlert now then
    -- Pas d'alerte pendant cooldown
    { alerts := [], sms := none, alertCooldown := alertCooldown }
  else
    let alerts := collectAlerts sensorData
    -- Envoyer SMS si alerte critique
    let criticalAlerts := alerts.filter (fun a => decide (a.severity = "critical"))
    match criticalAlerts.head? with
    | some first =>
      { alerts := alerts, sms := some first,
        alertCooldown := Function.update alertCooldown sensorData.sensor_id (some nowSet) }
    | none => { alerts := alerts, sms := none, alertCooldown := alertCooldown }

/-- The cooldown window of a sensor is active at `now`: a non-zero time is recorded for the
sensor, less than 30 minutes before `now`. -/
def CooldownWindowActive (alertCooldown : String → Option Int) (sensor_id : String)
    (now : Int) : Prop :=
  ∃ last, alertCooldown sensor_id = some last ∧ last ≠ 0 ∧ now - last < 30 * 60 * 1000

/-- The cooldown map that holds the single entry `sensor_id ↦ last`. -/
def singleCooldown (sensor_id : String) (last : Int) : String → Option Int :=
  fun key => if key = sensor_id then some last else none

/-- A reading of sensor `S1` with humidity 50, temperature 25 and pH 5.0. -/
def acidReading : SensorData :=
  { sensor_id := "S1", humidity := 50, temperature := 25, soil_ph := 5.0 }

/-- The pH warning that `checkAndAlert` creates for a reading. -/
def phWarning (sensorData : SensorData) : Alert :=
  createAlert sensorData.sensor_id "ph" "warning"
    [.str "pH anormal: ", .num sensorData.soil_ph]

/-! ## Rule engine (`rule-engine.service.js`) -/

/-- A four-tier threshold entry of `this.rules`. -/
structure TierRule where
  critical_low : ℚ
  warning_low : ℚ
  warning_high : ℚ
  critical_high : ℚ

/-- The entry `battery` of `this.rules`. -/
structure BatteryRule where
  warning : ℚ
  critical : ℚ

/-- The table `this.rules` of `RuleEngine`. -/
structure Rules where
  humidity : TierRule
  temperature : TierRule
  soil_ph : TierRule
  battery : BatteryRule

/-- The values of `this.rules` set by the constructor. -/
def RuleEngine.rules : Rules where
  humidity := { critical_low := 30, warning_low := 40, warning_high := 75, critical_high := 85 }
  temperature :=
    { critical_low := 10, warning_low := 15, warning_high := 35, critical_high := 38 }
  soil_ph := { critical_low := 5.0, warning_low := 5.5, warning_high := 7.5, critical_high := 8.0 }
  battery := { warning := 30, critical := 15 }

/-- An entry `{ message, action, priority }` of `this.recommendations`. -/
structure Advice where
  message : String
  action : String
  priority : String
  deriving DecidableEq

/-- The entry `humidity_critical_low` of `this.recommendations`. -/
def RuleEngine.humidity_critical_low : Advice :=
  { message := "Irrigation urgente requise", action := "START_IMMEDIATE_IRRIGATION",
    priority := "CRITICAL" }

/-- The entry `humidity_warning_low` of `this.recommendations`. -/
def RuleEngine.humidity_warning_low : Advice :=
  { message := "Irrigation recommandée", action := "SCHEDULE_IRRIGATION",
    priority := "WARNING" }

/-- The entry `temperature_critical_high` of `this.recommendations`. -/
def RuleEngine.temperature_critical_high : Advice :=
  { message := "Stress thermique - Activer ombrage", action := "ACTIVATE_SHADING",
    priority := "CRITICAL" }

/-- The entry `soil_ph_critical_low` of `this.recommendations`. -/
def RuleEngine.soil_ph_critical_low : Advice :=
  { message := "Sol trop acide - Ajouter chaux", action := "APPLY_LIME",
    priority := "WARNING" }

/-- A finding returned by `evaluate`: `{ message, action, priority, metric, value,
threshold }`. -/
structure Evaluation where
  message : String
  action : String
  priority : String
  metric : String
  value : ℚ
  threshold : ℚ
  deriving DecidableEq

/-- The object `{ ...advice, metric, value, threshold }`. -/
def RuleEngine.finding (advice : Advice) (metric : String) (value threshold : ℚ) :
    Evaluation :=
  { message := advice.message, action := advice.action, priority := advice.priority,
    metric := metric, value := value, threshold := threshold }

/-- The method `evaluate(sensorData)` of `RuleEngine`. -/
def RuleEngine.evaluate (sensorData : SensorData) : List Evaluation :=
  let evaluations : List Evaluation := []
  -- Évaluer humidité
  let evaluations :=
    if sensorData.humidity < RuleEngine.rules.humidity.critical_low then
      evaluations ++ [RuleEngine.finding RuleEngine.humidity_critical_low "humidity"
        sensorData.humidity RuleEngine.rules.humidity.critical_low]
    else if sensorData.humidity < RuleEngine.rules.humidity.warning_low then
      evaluations ++ [RuleEngine.finding RuleEngine.humidity_warning_low "humidity"
        sensorData.humidity RuleEngine.rules.humidity.warning_low]
    else evaluations
  -- Évaluer température
  let evaluations :=
    if sensorData.temperature > RuleEngine.rules.temperature.critical_high then
      evaluations ++ [RuleEngine.finding RuleEngine.temperature_critical_high "temperature"
        sensorData.temperature RuleEngine.rules.temperature.critical_high]
    else evaluations
  -- Évaluer pH
  let evaluations :=
    if sensorData.soil_ph < RuleEngine.rules.soil_ph.critical_low then
      evaluations ++ [RuleEngine.finding RuleEngine.soil_ph_critical_low "soil_ph"
        sensorData.soil_ph RuleEngine.rules.soil_ph.critical_low]
    else evaluations
  -- Évaluer batterie
  let evaluations :=
    match sensorData.battery_level with
    | some battery_level =>
      if battery_level < RuleEngine.rules.battery.critical then
        evaluations ++ [{ message := "Batterie critique - Recharger capteur",
                          action := "REPLACE_BATTERY",
                          priority := "CRITICAL",
                          metric := "battery",
                          value := battery_level,
                          threshold := RuleEngine.rules.battery.critical }]
      else evaluations
    | none => evaluations
  evaluations

/-- The findings of one metric among a list of findings. -/
def findingsOf (metric : String) (evaluations : List Evaluation) : List Evaluation :=
  evaluations.filter (fun e => decide (e.metric = metric))

/-- A reading with humidity 90, temperature 5 and pH 8.5, each beyond a critical bound of
`this.rules`, and no battery level. -/
def beyondCriticalReading : SensorData :=
  { sensor_id := "S1", humidity := 90, temperature := 5, soil_ph := 8.5 }

/-- A reading with humidity 50, temperature 20 and pH 4.5, below the critical pH bound. -/
def veryAcidReading : SensorData :=
  { sensor_id := "S1", humidity := 50, temperature := 20, soil_ph := 4.5 }

/-! ## Temperature, pH, weather, trend, crop and irrigation analyses -/

/-- The current weather snapshot, with the field the recommendation service reads. -/
structure Weather where
  wind_speed : Option ℚ
  deriving DecidableEq

/-- The object `recommendationSettings` of a farmer profile, with the field read here. -/
structure RecommendationSettings where
  rainDelayIrrigation : Option Bool
  deriving DecidableEq

/-- A farmer profile, with the field that `analyzeWeather` reads. -/
structure FarmerProfile where
  recommendationSettings : Option RecommendationSettings
  deriving DecidableEq

/-- The method `analyzeTemperature(currentTemp, optimalRange, weather)`; `weather` may be
`null` or `undefined` (`none`). -/
def analyzeTemperature (currentTemp : ℚ) (optimalRange : Range) (weather : Option Weather) :
    List Recommendation :=
  let windSpeed : ℚ := (weather.bind (fun w => w.wind_speed)).getD 0
  if currentTemp > optimalRange.max * 1.2 then
    -- Très chaud
    [{ type := "critical"
       category := "temperature"
       title := "Stress thermique sévère"
       message := [.str "Température critique (", .num currentTemp,
         .str "°C). Cultures en danger."]
       action := [.str (if windSpeed > 5
         then "Irrigation rafraîchissante + vent naturel"
         else "Irrigation rafraîchissante + ombrage artificiel")]
       priority := some 10
       data := [("temperature", .num currentTemp), ("optimalMax", .num optimalRange.max)] }]
  else if currentTemp > optimalRange.max then
    -- Chaud
    [{ type := "warning"
       category := "temperature"
       title := "Température élevée"
       message := [.str "Température au-dessus de l'optimal (", .num currentTemp, .str "°C)."]
       action := [.str "Augmenter fréquence irrigation"]
       priority := some 6
       data := [("temperature", .num currentTemp), ("optimalMax", .num optimalRange.max)] }]
  else if currentTemp < optimalRange.min * 0.8 then
    -- Très froid
    [{ type := "warning"
       category := "temperature"
       title := "Température basse"
       message := [.str "Température sous l'optimal (", .num currentTemp,
         .str "°C). Croissance ralentie."]
       action := [.str "Protéger cultures sensibles"]
       priority := some 5
       data := [("temperature", .num currentTemp), ("optimalMin", .num optimalRange.min)] }]
  else []

/-- The method `calculateLimeRequirement(currentPH, targetPH)`. -/
def calculateLimeRequirement (currentPH targetPH : ℚ) : Int :=
  let deficit := targetPH - currentPH
  mathRound (deficit * 500)

/-- The method `analyzePH(currentPH, optimalRange)`. -/
def analyzePH (currentPH : ℚ) (optimalRange : Range) : List Recommendation :=
  if currentPH < optimalRange.min then
    -- Trop acide
    [{ type := "warning"
       category := "soil"
       title := "Sol trop acide"
       message := [.str "pH bas (", .num currentPH, .str "). Nécessite chaulage."]
       action := [.str "Appliquer ",
         .num (calculateLimeRequirement currentPH optimalRange.min : Int),
         .str " kg/ha de chaux"]
       priority := some 8
       data := [("pH", .num currentPH), ("optimalMin", .num optimalRange.min)] }]
  else if currentPH > optimalRange.max then
    -- Trop basique
    [{ type := "warning"
       category := "soil"
       title := "Sol trop alcalin"
       message := [.str "pH élevé (", .num currentPH, .str ")."]
       action := [.str "Appliquer du soufre ou matière organique acide"]
       priority := some 7
       data := [("pH", .num currentPH), ("optimalMax", .num optimalRange.max)] }]
  else []

/-- The comparison `x > bound` of a numeric property that may be `undefined`. -/
def optionGt (x : Option ℚ) (bound : ℚ) : Bool :=
  match x with
  | some q => decide (q > bound)
  | none => false

/-- The comparison `x < bound` of a numeric property that may be `undefined`. -/
def optionLt (x : Option ℚ) (bound : ℚ) : Bool :=
  match x with
  | some q => decide (q < bound)
  | none => false

/-- The method `analyzeWeather(weather, forecast, farmerProfile)`, for a weather snapshot
that is an object. -/
def analyzeWeather (weather : Weather) (forecast : List ForecastDay)
    (farmerProfile : Option FarmerProfile) : List Recommendation :=
  let recommendations : List Recommendation := []
  let irrigationDelay : Bool :=
    ((farmerProfile.bind (fun f => f.recommendationSettings)).bind
      (fun settings => settings.rainDelayIrrigation)).getD true
  -- Vent fort
  let recommendations :=
    if optionGt weather.wind_speed 15 then
      recommendations ++
        [{ type := "warning"
           category := "weather"
           title := "Vents forts"
           message := [.str "Vents à ", .ofOption weather.wind_speed,
             .str " m/s. Risque de dommages."]
           action := [.str "Protéger cultures hautes et serres"]
           priority := some 6
           data := [("windSpeed", .ofOption weather.wind_speed)] }]
    else recommendations
  -- Prévision pluie abondante
  let heavyRainDay := forecast.find? (fun day => optionGt day.rain_volume 20)
  let recommendations :=
    match heavyRainDay with
    | some day =>
      if irrigationDelay then
        recommendations ++
          [{ type := "info"
             category := "irrigation"
             title := "Pluie abondante prévue"
             message := [.ofOption day.rain_volume, .str "mm prévus ", .str day.day]
             action := [.str "Suspendre tout programme d'irrigation"]
             priority := some 4
             data := [("day", .str day.day), ("rainVolume", .ofOption day.rain_volume)] }]
      else recommendations
    | none => recommendations
  -- Sécheresse prolongée
  let dryDays := (forecast.filter (fun day => optionLt day.rain_chance 20)).length
  let recommendations :=
    if dryDays ≥ 5 then
      recommendations ++
        [{ type := "warning"
           category := "weather"
           title := "Période sèche prolongée"
           message := [.num dryDays, .str " jours sans pluie prévue"]
           action := [.str "Prévoir irrigation supplémentaire"]
           priority := some 5
           data := [("dryDays", .num dryDays)] }]
    else recommendations
  recommendations

/-- The method `calculateTrend(data, field)`; `field` selects the property read. The result
is the number `0` or the string of `toFixed(2)`. -/
def calculateTrend (data : List SensorData) (field : SensorData → ℚ) : JSValue :=
  if data.length < 2 then .num 0
  else
    match data.getLast?, data.head? with
    | some oldest, some newest =>
      let firstValue := field oldest
      let lastValue := field newest
      let timeDiff : ℚ := ((newest.timestamp - oldest.timestamp : Int) : ℚ) / (1000 * 3600)
      if timeDiff > 0 then .fixed 2 ((lastValue - firstValue) / timeDiff) else .num 0
    | _, _ => .num 0

/-- The method `analyzeTrends(historicalData)`. -/
def analyzeTrends (historicalData : List SensorData) : List Recommendation :=
  let recommendations : List Recommendation := []
  if historicalData.length < 6 then recommendations
  else
    -- Calculer la tendance d'humidité
    let humidityTrend := calculateTrend historicalData (fun d => d.humidity)
    let recommendations :=
      if optionLt humidityTrend.toNumber (-5) then
        recommendations ++
          [{ type := "warning"
             category := "trend"
             title := "Humidité en baisse rapide"
             message := [.str "Tendance à la baisse détectée"]
             action := [.str "Surveiller de près et préparer irrigation"]
             priority := some 6
             data := [("trend", humidityTrend)] }]
      else recommendations
    -- Calculer la tendance de température
    let tempTrend := calculateTrend historicalData (fun d => d.temperature)
    let recommendations :=
      if optionGt tempTrend.toNumber 3 then
        recommendations ++
          [{ type := "warning"
             category := "trend"
             title := "Température en hausse"
             message := [.str "Tendance au réchauffement détectée"]
             action := [.str "Prévoir mesures rafraîchissantes"]
             priority := some 5
             data := [("trend", tempTrend)] }]
      else recommendations
    recommendations

/-- The method `getCropSpecificRecommendations(cropType, currentData)`. -/
def getCropSpecificRecommendations (cropType : String) (currentData : SensorData) :
    List Recommendation :=
  let recommendations : List Recommendation := []
  match cropKnowledge cropType with
  | none => recommendations
  | some _ =>
    -- Exemple pour le riz
    let recommendations :=
      if cropType = "rice" ∧ currentData.humidity > 75 ∧ currentData.temperature > 30 then
        recommendations ++
          [{ type := "warning"
             category := "disease"
             title := "Risque de pyriculariose"
             message := [.str "Conditions favorables aux maladies fongiques du riz"]
             action :=
               [.str "Surveiller feuilles et appliquer fongicide préventif si nécessaire"]
             priority := some 7
             data := [("disease", .str "pyriculariose")] }]
      else recommendations
    -- Exemple pour les tomates
    let recommendations :=
      if cropType = "tomatoes" ∧ currentData.humidity > 70 ∧ currentData.temperature > 25 then
        recommendations ++
          [{ type := "warning"
             category := "disease"
             title := "Risque de mildiou"
             message := [.str "Conditions idéales pour le développement du mildiou"]
             action := [.str "Appliquez un traitement préventif à base de cuivre"]
             priority := some 8
             data := [("disease", .str "mildiou")] }]
      else recommendations
    recommendations

/-- The method `calculateWaterAmount(humidity, cropKnowledge)`. -/
def calculateWaterAmount (humidity : ℚ) (knowledge : CropKnowledge) : Int :=
  let deficit := max 0 (knowledge.optimalHumidity.min - humidity)
  mathRound (deficit * 2)

/-- The method `generateIrrigationPlan(historicalData, forecast, cropKnowledge)`; `none` is
`null`. For an empty history the average is `NaN`, every comparison with it is false and
the result is `null`. -/
def generateIrrigationPlan (historicalData : List SensorData) (forecast : List ForecastDay)
    (knowledge : CropKnowledge) : Option Recommendation :=
  if historicalData.length = 0 then none
  else
    let avgHumidity : ℚ :=
      (historicalData.foldl (fun sum d => sum + d.humidity) 0) / historicalData.length
    let next24hRain : ℚ :=
      ((forecast.take 3).foldl (fun sum day => sum + day.rain_chance.getD 0) 0) / 3
    if avgHumidity < knowledge.optimalHumidity.min ∧ next24hRain < 30 then
      some
        { type := "info"
          category := "planning"
          title := "Plan d'irrigation recommandé"
          message := [.str "Humidité moyenne: ", .fixed 1 avgHumidity,
            .str "%, Pluie prévue: ", .fixed 0 next24hRain, .str "%"]
          action := [.str "Irriguer ", .num (calculateWaterAmount avgHumidity knowledge : Int),
            .str " litres/m² dans les 12h"]
          priority := some 4
          data := [("avgHumidity", .num avgHumidity), ("next24hRain", .num next24hRain),
            ("waterAmount", .num (calculateWaterAmount avgHumidity knowledge : Int))] }
    else none

/-- The method `generateRecommendations(latestData, historicalData, weather, forecast,
cropType, farmerProfile)`. The result is `none` when the call throws: `analyzeWeather` reads
`weather.wind_speed` and throws a `TypeError` when `weather` is `null` or `undefined`. -/
def generateRecommendations (latestData : SensorData) (historicalData : List SensorData)
    (weather : Option Weather) (forecast : List ForecastDay) (cropType : String)
    (farmerProfile : Option FarmerProfile) : Option (List Recommendation) :=
  let recommendations : List Recommendation := []
  let knowledge := (cropKnowledge cropType).getD maizeKnowledge
  -- 1. Analyse de l'humidité
  let humidityAnalysis := analyzeHumidity latestData.humidity knowledge.optimalHumidity forecast
  let recommendations := recommendations ++ humidityAnalysis
  -- 2. Analyse de la température
  let tempAnalysis :=
    analyzeTemperature latestData.temperature knowledge.optimalTemperature weather
  let recommendations := recommendations ++ tempAnalysis
  -- 3. Analyse du pH
  let phAnalysis := analyzePH latestData.soil_ph knowledge.optimalPH
  let recommendations := recommendations ++ phAnalysis
  -- 4. Recommandations météo
  match weather with
  | none => none
  | some weatherObject =>
    let weatherAnalysis := analyzeWeather weatherObject forecast farmerProfile
    let recommendations := recommendations ++ weatherAnalysis
    -- 5. Tendances historiques
    let trendAnalysis := analyzeTrends historicalData
    let recommendations := recommendations ++ trendAnalysis
    -- 6. Recommandations spécifiques culture
    let cropSpecific := getCropSpecificRecommendations cropType latestData
    let recommendations := recommendations ++ cropSpecific
    -- 7. Planification irrigation (si données suffisantes)
    let recommendations :=
      if historicalData.length ≥ 12 then
        match generateIrrigationPlan historicalData forecast knowledge with
        | some irrigationPlan => recommendations ++ [irrigationPlan]
        | none => recommendations
      else recommendations
    -- Trier par priorité
    some (prioritizeRecommendations recommendations)

/-- The list `l` holds exactly one recommendation, of the given type, category and title. -/
def IsSingle (l : List Recommendation) (type category title : String) : Prop :=
  ∃ rec, l = [rec] ∧ rec.type = type ∧ rec.category = category ∧ rec.title = title

/-- The rain chance of the next period in the words of the specification: the rain chance
of the second forecast entry, `0` when absent. -/
def nextPeriodRain (forecast : List ForecastDay) : ℚ :=
  match forecast with
  | _ :: day :: _ =>
    match day.rain_chance with
    | some chance => chance
    | none => 0
  | _ => 0

/-- The weather snapshot is present and its wind speed is present and above 5. -/
def WindAboveFive (weather : Option Weather) : Prop :=
  ∃ w speed, weather = some w ∧ w.wind_speed = some speed ∧ speed > 5

/-- A forecast of two days, the second with a rain chance of 60. -/
def rainTomorrow : List ForecastDay :=
  [{ day := "Lun", rain_chance := some 10, rain_volume := some 0 },
   { day := "Mar", rain_chance := some 60, rain_volume := some 4 }]

/-- A reading of sensor `S1` with humidity 35, temperature 25 and pH 6.5. -/
def lowHumidityReading : SensorData :=
  { sensor_id := "S1", humidity := 35, temperature := 25, soil_ph := 6.5 }

/-! ## Inputs and specification-level notions for the numeric claims -/

/-- The farmer's `rainDelayIrrigation` preference in the words of the specification: enabled
when the profile, its settings or the setting itself is absent, otherwise the setting. -/
def rainDelayEnabled (farmerProfile : Option FarmerProfile) : Bool :=
  match farmerProfile with
  | none => true
  | some profile =>
    match profile.recommendationSettings with
    | none => true
    | some settings =>
      match settings.rainDelayIrrigation with
      | none => true
      | some enabled => enabled

/-- The type, category and title of a recommendation. -/
def summary (rec : Recommendation) : String × String × String :=
  (rec.type, rec.category, rec.title)

/-- A farmer profile whose `rainDelayIrrigation` preference is `false`. -/
def noRainDelayProfile : Option FarmerProfile :=
  some { recommendationSettings := some { rainDelayIrrigation := some false } }

/-- The recommendations that `generateRecommendations` has pushed when it reaches the final
sort, for a weather snapshot that is an object. -/
def emittedRecommendations (latestData : SensorData) (historicalData : List SensorData)
    (w : Weather) (forecast : List ForecastDay) (cropType : String)
    (farmerProfile : Option FarmerProfile) : List Recommendation :=
  analyzeHumidity latestData.humidity
      ((cropKnowledge cropType).getD maizeKnowledge).optimalHumidity forecast ++
    analyzeTemperature latestData.temperature
      ((cropKnowledge cropType).getD maizeKnowledge).optimalTemperature (some w) ++
    analyzePH latestData.soil_ph ((cropKnowledge cropType).getD maizeKnowledge).optimalPH ++
    analyzeWeather w forecast farmerProfile ++
    analyzeTrends historicalData ++
    getCropSpecificRecommendations cropType latestData ++
    (if historicalData.length ≥ 12 then
      (generateIrrigationPlan historicalData forecast
        ((cropKnowledge cropType).getD maizeKnowledge)).toList
    else [])

/-- The order of the specification by type: a critical recommendation never follows a
warning or an info one, a warning never follows an info one, and within one type the
priority does not increase. -/
def typeOrdered (a b : Recommendation) : Prop :=
  ¬ (a.type = "warning" ∧ b.type = "critical") ∧
  ¬ (a.type = "info" ∧ (b.type = "critical" ∨ b.type = "warning")) ∧
  (a.type = b.type → specPriority a ≥ specPriority b)

/-- Inserting `a` into a list keeps its elements of any key that is not `a`'s, and puts `a`
in front of those that compare equal to it. -/
theorem filter_orderedInsert {α : Type} (r : α → α → Prop) [DecidableRel r] (p : α → Bool)
    (a : α) (l : List α) (h : ∀ b, p a = true → p b = true → r a b) :
    (l.orderedInsert r a).filter p = if p a then a :: l.filter p else l.filter p := by
  induction l with
  | nil => by_cases hp : p a = true <;> simp [hp]
  | cons b l ih =>
    by_cases hab : r a b
    · simp only [List.orderedInsert, hab, if_true]
      by_cases hp : p a = true <;> simp [hp]
    · simp only [List.orderedInsert, hab, if_false]
      by_cases hp : p a = true
      · have hb : ¬ p b = true := fun hb => hab (h b hp hb)
        simp [List.filter_cons, hb, ih, hp]
      · simp [List.filter_cons, ih, hp]

/-- The elements of one equivalence class keep their order under `jsSort`. -/
theorem filter_jsSort {α : Type} (compareFn : α → α → Int) (p : α → Bool)
    (h : ∀ a b, p a = true → p b = true → compareFn a b ≤ 0) (l : List α) :
    (jsSort compareFn l).filter p = l.filter p := by
  induction l with
  | nil => rfl
  | cons a l ih =>
    have step := filter_orderedInsert (fun a b => compareFn a b ≤ 0) p a
      (List.insertionSort (fun a b => compareFn a b ≤ 0) l) (fun b ha hb => h a b ha hb)
    unfold jsSort at ih ⊢
    rw [List.insertionSort, step, ih]
    by_cases hp : p a = true <;> simp [hp]

/-- The function `jsSort` permutes its argument. -/
theorem jsSort_perm {α : Type} (compareFn : α → α → Int) (l : List α) :
    (jsSort compareFn l).Perm l :=
  List.perm_insertionSort _ l

/-- The lookup `typePriority[r.type] || 0` is the rank of the specification. -/
theorem typeRank_eq_specRank (r : Recommendation) : typeRank r = specRank r := by
  unfold typeRank typePriority specRank
  split_ifs <;> rfl

/-- The value `r.priority || 0` is the priority of the specification. -/
theorem numericPriority_eq_specPriority (r : Recommendation) :
    numericPriority r = specPriority r := by
  unfold numericPriority specPriority
  cases r.priority <;> rfl

/-- The comparator of `prioritizeRecommendations` is non-positive exactly on ordered pairs. -/
theorem prioritizeCompare_nonpos_iff (a b : Recommendation) :
    prioritizeCompare a b ≤ 0 ↔ priorityOrdered a b := by
  unfold prioritizeCompare priorityOrdered
  simp only [← typeRank_eq_specRank, ← numericPriority_eq_specPriority]
  by_cases h : typeRank a = typeRank b
  · simp only [h, ne_eq, not_true_eq_false, if_false, gt_iff_lt, lt_self_iff_false, true_and,
      false_or, ge_iff_le]
    omega
  · simp only [ne_eq, h, not_false_eq_true, if_true, gt_iff_lt, false_and, or_false]
    omega

/-- The output of `prioritizeRecommendations` is sorted: every element is ordered before
every later one. -/
theorem prioritizeRecommendations_pairwise (l : List Recommendation) :
    (prioritizeRecommendations l).Pairwise (fun a b => prioritizeCompare a b ≤ 0) := by
  haveI : IsTotal Recommendation (fun a b => prioritizeCompare a b ≤ 0) :=
    ⟨fun a b => by
      simp only [prioritizeCompare_nonpos_iff, priorityOrdered]
      omega⟩
  haveI : IsTrans Recommendation (fun a b => prioritizeCompare a b ≤ 0) :=
    ⟨fun a b c => by
      simp only [prioritizeCompare_nonpos_iff, priorityOrdered]
      omega⟩
  exact List.sorted_insertionSort (fun a b => prioritizeCompare a b ≤ 0) l

/-- A list that is already in priority order is left unchanged. -/
theorem prioritizeRecommendations_of_pairwise (l : List Recommendation)
    (h : l.Pairwise (fun a b => prioritizeCompare a b ≤ 0)) :
    prioritizeRecommendations l = l :=
  List.Sorted.insertionSort_eq h

/-- C3: `prioritizeRecommendations` is idempotent. -/
theorem prioritizeRecommendations_idempotent (x : List Recommendation) :
    prioritizeRecommendations (prioritizeRecommendations x) = prioritizeRecommendations x :=
  prioritizeRecommendations_of_pairwise _ (prioritizeRecommendations_pairwise x)

/-- C4: in the output of `prioritizeRecommendations`, any two adjacent elements `a` before
`b` satisfy `rank a > rank b`, or `rank a = rank b` and `priority a ≥ priority b`, where the
rank is 3 for critical, 2 for warning, 1 for info and 0 for any other type, and a missing
priority counts as 0. -/
theorem prioritizeRecommendations_ordered (x : List Recommendation) :
    List.Chain' priorityOrdered (prioritizeRecommendations x) := by
  have h := prioritizeRecommendations_pairwise x
  simp only [prioritizeCompare_nonpos_iff] at h
  exact h.chain'

/-- C5: `prioritizeRecommendations` is stable: for every key (type rank, numeric priority),
the recommendations with that key appear in the output in the same order as in the input. -/
theorem prioritizeRecommendations_stable (x : List Recommendation) (k : Int × Int) :
    (prioritizeRecommendations x).filter (fun r => decide (sortKey r = k)) =
      x.filter (fun r => decide (sortKey r = k)) := by
  apply filter_jsSort
  intro a b ha hb
  have ha' : sortKey a = k := of_decide_eq_true ha
  have hb' : sortKey b = k := of_decide_eq_true hb
  have hab : sortKey a = sortKey b := ha'.trans hb'.symm
  simp only [sortKey, Prod.mk.injEq] at hab
  rw [prioritizeCompare_nonpos_iff]
  exact Or.inr ⟨hab.1, le_of_eq hab.2.symm⟩

/-! ### Grouping by category -/

/-- The keys after one grouping step: a new category is appended, a known one changes
nothing. -/
theorem groupPush_keys (g : List (String × List Recommendation)) (r : Recommendation) :
    (groupPush g r).map Prod.fst =
      if r.category ∈ g.map Prod.fst then g.map Prod.fst else g.map Prod.fst ++ [r.category] := by
  induction g with
  | nil => simp [groupPush]
  | cons e g ih =>
    obtain ⟨c, rs⟩ := e
    by_cases h : c = r.category
    · simp [groupPush, h]
    · have h' : ¬ r.category = c := fun h' => h h'.symm
      by_cases hm : r.category ∈ g.map Prod.fst
      · simp only [groupPush, h, if_false, List.map_cons, ih, hm, if_true, List.mem_cons,
          or_true]
      · simp only [groupPush, h, if_false, List.map_cons, ih, hm, List.mem_cons, h', or_self,
          List.cons_append]

/-- The entries after one grouping step: the entries of other categories are kept, the entry
of the category of `r` has `r` appended, or is new and holds `r` alone. -/
theorem mem_groupPush (g : List (String × List Recommendation)) (r : Recommendation)
    (hn : (g.map Prod.fst).Nodup) (e : String × List Recommendation)
    (he : e ∈ groupPush g r) :
    (e ∈ g ∧ e.1 ≠ r.category) ∨
      (e.1 = r.category ∧
        ((∃ rs, (r.category, rs) ∈ g ∧ e.2 = rs ++ [r]) ∨
          (r.category ∉ g.map Prod.fst ∧ e.2 = [r]))) := by
  induction g with
  | nil =>
    simp only [groupPush, List.mem_singleton] at he
    subst he
    exact Or.inr ⟨rfl, Or.inr ⟨by simp, rfl⟩⟩
  | cons e' g ih =>
    obtain ⟨c, rs⟩ := e'
    simp only [List.map_cons, List.nodup_cons] at hn
    by_cases h : c = r.category
    · simp only [groupPush, h, if_true, List.mem_cons] at he
      rcases he with he | he
      · subst he
        exact Or.inr ⟨rfl, Or.inl ⟨rs, by simp [h], rfl⟩⟩
      · have hc : e.1 ≠ r.category := by
          intro hc
          apply hn.1
          rw [h, ← hc]
          exact List.mem_map_of_mem Prod.fst he
        exact Or.inl ⟨List.mem_cons_of_mem _ he, hc⟩
    · simp only [groupPush, h, if_false, List.mem_cons] at he
      rcases he with he | he
      · subst he
        exact Or.inl ⟨List.mem_cons_self _ _, h⟩
      · rcases ih hn.2 he with ⟨h1, h2⟩ | ⟨h1, ⟨rs', h2, h3⟩ | ⟨h2, h3⟩⟩
        · exact Or.inl ⟨List.mem_cons_of_mem _ h1, h2⟩
        · exact Or.inr ⟨h1, Or.inl ⟨rs', List.mem_cons_of_mem _ h2, h3⟩⟩
        · refine Or.inr ⟨h1, Or.inr ⟨?_, h3⟩⟩
          simp only [List.map_cons, List.mem_cons, not_or]
          exact ⟨fun h' => h h'.symm, h2⟩

/-- The recommendations of a category after one more recommendation. -/
theorem ofCategory_append_singleton (c : String) (l : List Recommendation)
    (r : Recommendation) :
    ofCategory c (l ++ [r]) = if r.category = c then ofCategory c l ++ [r] else ofCategory c l := by
  unfold ofCategory
  by_cases h : r.category = c <;> simp [List.filter_append, List.filter_cons, h]

/-- One grouping step keeps the loop invariant. -/
theorem Grouped.push {g : List (String × List Recommendation)} {l : List Recommendation}
    (h : Grouped g l) (r : Recommendation) : Grouped (groupPush g r) (l ++ [r]) := by
  obtain ⟨hn, hg, hl⟩ := h
  refine ⟨?_, ?_, ?_⟩
  · rw [groupPush_keys]
    by_cases hm : r.category ∈ g.map Prod.fst
    · simpa [hm] using hn
    · simp only [hm, if_false]
      exact List.Nodup.append hn (List.nodup_singleton _) (by simpa using hm)
  · intro e he
    rcases mem_groupPush g r hn e he with ⟨h1, h2⟩ | ⟨h1, ⟨rs, h2, h3⟩ | ⟨h2, h3⟩⟩
    · obtain ⟨h3, h4⟩ := hg e h1
      refine ⟨?_, h4⟩
      rw [ofCategory_append_singleton, if_neg (fun h' => h2 h'.symm)]
      exact h3
    · have h4 := (hg _ h2).1
      simp only at h4
      refine ⟨?_, by rw [h3]; simp⟩
      rw [ofCategory_append_singleton, if_pos h1.symm, h3, h4, h1]
    · have h4 : ofCategory e.1 l = [] := by
        unfold ofCategory
        rw [List.filter_eq_nil_iff]
        intro a ha hc
        apply h2
        have hc' : a.category = e.1 := of_decide_eq_true hc
        rw [← h1, ← hc']
        exact hl a ha
      refine ⟨?_, by rw [h3]; simp⟩
      rw [ofCategory_append_singleton, if_pos h1.symm, h4, h3]
      rfl
  · intro a ha
    rw [groupPush_keys]
    rcases List.mem_append.mp ha with ha | ha
    · have := hl a ha
      by_cases hm : r.category ∈ g.map Prod.fst
      · simpa [hm] using this
      · simp only [hm, if_false]
        exact List.mem_append_left _ this
    · have hr : a = r := by simpa using ha
      subst hr
      by_cases hm : a.category ∈ g.map Prod.fst
      · simp [hm]
      · simp [hm]

/-- The grouping loop builds one entry per category, holding the recommendations of that
category in input order. -/
theorem grouped_foldl (l : List Recommendation) : Grouped (l.foldl groupPush []) l := by
  induction l using List.reverseRecOn with
  | nil => exact ⟨List.nodup_nil, by simp, by simp⟩
  | append_singleton l r ih =>
    rw [List.foldl_append]
    exact ih.push r

/-! ### Aggregation -/

/-- The entry pushed for a non-empty group: the head of the sorted group, with `count` and
`sensors` set. -/
theorem aggregateEntry_eq (rs : List Recommendation) (hne : rs ≠ []) :
    ∃ h, (jsSort aggregateCompare rs).head? = some h ∧ h ∈ rs ∧
      aggregateEntry rs = some { h with
        count := some rs.length
        sensors := some (keepFirstOccurrences
          ((jsSort aggregateCompare rs).map (fun r => r.sensorId))) } := by
  have hp := jsSort_perm aggregateCompare rs
  cases hs : jsSort aggregateCompare rs with
  | nil =>
    rw [hs] at hp
    exact absurd hp.symm.eq_nil hne
  | cons h t =>
    refine ⟨h, rfl, ?_, ?_⟩
    · rw [hs] at hp
      exact hp.subset (List.mem_cons_self _ _)
    · have hlen : (h :: t).length = rs.length := by rw [← hs]; exact hp.length_eq
      simp only [aggregateEntry, hs, List.head?_cons, hlen]

/-- The entries built from the groups carry, in order, the categories of the groups. -/
theorem filterMap_aggregateEntry_category (g : List (String × List Recommendation))
    (h : ∀ e ∈ g, e.2 ≠ [] ∧ ∀ r ∈ e.2, r.category = e.1) :
    (g.filterMap (fun e => aggregateEntry e.2)).map (fun r => r.category) = g.map Prod.fst := by
  induction g with
  | nil => rfl
  | cons e g ih =>
    obtain ⟨hne, hcat⟩ := h e (List.mem_cons_self _ _)
    obtain ⟨hd, _, hmem, heq⟩ := aggregateEntry_eq e.2 hne
    have ih' := ih (fun e' he' => h e' (List.mem_cons_of_mem _ he'))
    simp only [List.filterMap_cons, heq, List.map_cons, ih', hcat hd hmem]

/-- The members of a group of the loop invariant have the category of the group. -/
theorem Grouped.category_eq {g : List (String × List Recommendation)}
    {l : List Recommendation} (h : Grouped g l) :
    ∀ e ∈ g, e.2 ≠ [] ∧ ∀ r ∈ e.2, r.category = e.1 := by
  intro e he
  obtain ⟨h1, h2⟩ := h.2.1 e he
  refine ⟨h2, fun r hr => ?_⟩
  rw [h1] at hr
  exact of_decide_eq_true (List.mem_filter.mp hr).2

/-- The categories of the groups are the categories of the input. -/
theorem Grouped.mem_keys_iff {g : List (String × List Recommendation)}
    {l : List Recommendation} (h : Grouped g l) (c : String) :
    c ∈ g.map Prod.fst ↔ c ∈ l.map (fun r => r.category) := by
  constructor
  · intro hc
    obtain ⟨e, he, rfl⟩ := List.mem_map.mp hc
    obtain ⟨h1, h2⟩ := h.2.1 e he
    obtain ⟨r, hr⟩ := List.exists_mem_of_ne_nil _ h2
    rw [h1] at hr
    obtain ⟨hr1, hr2⟩ := List.mem_filter.mp hr
    exact List.mem_map.mpr ⟨r, hr1, of_decide_eq_true hr2⟩
  · intro hc
    obtain ⟨r, hr, rfl⟩ := List.mem_map.mp hc
    exact h.2.2 r hr

/-- The output of `aggregateRecommendations` is a permutation of the entries built from the
groups. -/
theorem aggregateRecommendations_perm (x : List (Option SensorAnalysis)) :
    (aggregateRecommendations x).Perm
      (((allRecommendations x).foldl groupPush []).filterMap
        (fun e => aggregateEntry e.2)) :=
  jsSort_perm _ _

/-- C6: the list returned by `aggregateRecommendations` has as many entries as there are
distinct categories among the input recommendations, and no two entries share a category. -/
theorem aggregateRecommendations_length (x : List (Option SensorAnalysis)) :
    (aggregateRecommendations x).length =
        ((allRecommendations x).map (fun r => r.category)).toFinset.card ∧
      (aggregateRecommendations x).length ≤
        ((allRecommendations x).map (fun r => r.category)).toFinset.card ∧
      ((aggregateRecommendations x).map (fun r => r.category)).Nodup := by
  have hg := grouped_foldl (allRecommendations x)
  have hcat := filterMap_aggregateEntry_category _ hg.category_eq
  have hperm := (aggregateRecommendations_perm x).map (fun r => r.category)
  rw [hcat] at hperm
  have hnodup : ((aggregateRecommendations x).map (fun r => r.category)).Nodup :=
    hperm.nodup_iff.mpr hg.1
  have hset : ((allRecommendations x).map (fun r => r.category)).toFinset =
      (((allRecommendations x).foldl groupPush []).map Prod.fst).toFinset := by
    ext c
    simp only [List.mem_toFinset]
    exact (hg.mem_keys_iff c).symm
  have hlen : (aggregateRecommendations x).length =
      ((allRecommendations x).map (fun r => r.category)).toFinset.card := by
    rw [hset, List.toFinset_card_of_nodup hg.1, ← hperm.length_eq, List.length_map]
  exact ⟨hlen, le_of_eq hlen, hnodup⟩

/-- The analysis of a humidity of 20 under the maize profile: one critical recommendation,
an object without a `sensorId`. -/
theorem analyzeHumidity_dry :
    analyzeHumidity 20 maizeKnowledge.optimalHumidity [] =
      [{ type := "critical"
         category := "irrigation"
         title := "Sécheresse critique"
         message := [.str "Humidité extrêmement basse (", .num 20, .str "%). Sol très sec."]
         action := [.str "Irrigation intensive immédiate"]
         priority := some 10
         data := [("humidity", .num 20), ("threshold", .num 40)]
         sensorId := none }] := by
  have h : (20 : ℚ) < 40 * 0.7 := by norm_num
  simp only [analyzeHumidity, maizeKnowledge, h, if_true]

/-- C9 fails on the code: for two sensors `S1` and `S2` that each contribute a critical
irrigation recommendation, the single entry returned has `count` 2 and its `sensors` field
is the one-element list holding `undefined`, not the list of `S1` and `S2`. -/
theorem aggregateRecommendations_sensors_undefined :
    (aggregateRecommendations twoDrySensors).map (fun e => (e.category, e.count, e.sensors)) =
      [("irrigation", some 2, some [none])] := by
  simp only [twoDrySensors, analyzeHumidity_dry]
  decide

/-! ### Alert cooldown -/

/-- The cooldown check of the code is true exactly inside an active cooldown window. -/
theorem cooldownActive_iff (alertCooldown : String → Option Int) (sensor_id : String)
    (now : Int) :
    cooldownActive (alertCooldown sensor_id) now = true ↔
      CooldownWindowActive alertCooldown sensor_id now := by
  unfold cooldownActive CooldownWindowActive cooldownDuration
  cases h : alertCooldown sensor_id with
  | none => simp
  | some last => simp

/-- Outside an active cooldown window, `checkAndAlert` returns the alerts of the three
checks and hands the first critical one, if any, to `sendBulkSMS`. -/
theorem checkAndAlert_of_inactive (alertCooldown : String → Option Int) (now nowSet : Int)
    (d : SensorData) (h : ¬ CooldownWindowActive alertCooldown d.sensor_id now) :
    (checkAndAlert alertCooldown now nowSet d).alerts = collectAlerts d ∧
      (checkAndAlert alertCooldown now nowSet d).sms =
        ((collectAlerts d).filter (fun a => decide (a.severity = "critical"))).head? := by
  have hcd : cooldownActive (alertCooldown d.sensor_id) now = false := by
    cases hc : cooldownActive (alertCooldown d.sensor_id) now with
    | false => rfl
    | true => exact absurd ((cooldownActive_iff _ _ _).mp hc) h
  unfold checkAndAlert
  simp only [hcd, Bool.false_eq_true, if_false]
  cases ((collectAlerts d).filter (fun a => decide (a.severity = "critical"))).head? with
  | none => exact ⟨rfl, rfl⟩
  | some first => exact ⟨rfl, rfl⟩

/-- Inside an active cooldown window, `checkAndAlert` returns nothing, sends nothing and
leaves the cooldown map as it is. -/
theorem checkAndAlert_of_active (alertCooldown : String → Option Int) (now nowSet : Int)
    (d : SensorData) (h : CooldownWindowActive alertCooldown d.sensor_id now) :
    (checkAndAlert alertCooldown now nowSet d).alerts = [] ∧
      (checkAndAlert alertCooldown now nowSet d).sms = none ∧
      (checkAndAlert alertCooldown now nowSet d).alertCooldown = alertCooldown := by
  have hcd := (cooldownActive_iff _ _ _).mpr h
  unfold checkAndAlert
  simp only [hcd, if_true, and_self]

/-- C12, amended: for a reading whose soil pH is below 5.5 or above 7.5, `checkAndAlert`
returns a list that contains the pH warning when the cooldown window of the sensor is not
active, and the empty list when it is active. -/
theorem checkAndAlert_ph_warning (alertCooldown : String → Option Int) (now nowSet : Int)
    (d : SensorData) (hph : d.soil_ph < 5.5 ∨ d.soil_ph > 7.5) :
    (¬ CooldownWindowActive alertCooldown d.sensor_id now →
        phWarning d ∈ (checkAndAlert alertCooldown now nowSet d).alerts ∧
        (phWarning d).severity = "warning") ∧
      (CooldownWindowActive alertCooldown d.sensor_id now →
        (checkAndAlert alertCooldown now nowSet d).alerts = []) := by
  constructor
  · intro hinactive
    rw [(checkAndAlert_of_inactive alertCooldown now nowSet d hinactive).1]
    refine ⟨?_, rfl⟩
    unfold collectAlerts thresholds phWarning
    simp [hph]
  · intro hactive
    exact (checkAndAlert_of_active alertCooldown now nowSet d hactive).1

/-- C12 at a concrete input: pH 5.0 on a sensor without a recorded alert. -/
theorem checkAndAlert_ph_warning_witness :
    (¬ CooldownWindowActive (fun _ => none) acidReading.sensor_id 1000000 →
        phWarning acidReading ∈
          (checkAndAlert (fun _ => none) 1000000 1000000 acidReading).alerts ∧
        (phWarning acidReading).severity = "warning") ∧
      (CooldownWindowActive (fun _ => none) acidReading.sensor_id 1000000 →
        (checkAndAlert (fun _ => none) 1000000 1000000 acidReading).alerts = []) :=
  checkAndAlert_ph_warning (fun _ => none) 1000000 1000000 acidReading
    (Or.inl (by norm_num [acidReading]))

/-- C12 as stated fails inside the cooldown window: sensor `S1` dispatched at time 1000000,
a reading with pH 5.0 comes 5 minutes later, and the list returned is empty. -/
theorem checkAndAlert_ph_warning_counterexample :
    acidReading.soil_ph < 5.5 ∧
      singleCooldown "S1" 1000000 acidReading.sensor_id = some 1000000 ∧
      (1300000 : Int) - 1000000 < 30 * 60 * 1000 ∧
      (checkAndAlert (singleCooldown "S1" 1000000) 1300000 1300000 acidReading).alerts = [] ∧
      phWarning acidReading ∉
        (checkAndAlert (singleCooldown "S1" 1000000) 1300000 1300000 acidReading).alerts := by
  have hlast : singleCooldown "S1" 1000000 acidReading.sensor_id = some 1000000 := by
    simp [singleCooldown, acidReading]
  have hactive : CooldownWindowActive (singleCooldown "S1" 1000000) acidReading.sensor_id
      1300000 := ⟨1000000, hlast, by decide, by decide⟩
  have hnil := (checkAndAlert_of_active (singleCooldown "S1" 1000000) 1300000 1300000
    acidReading hactive).1
  refine ⟨by norm_num [acidReading], hlast, by decide, hnil, ?_⟩
  rw [hnil]
  exact List.not_mem_nil _

/-- Outside an active cooldown window, the cooldown map is updated at the sensor of the
reading exactly when a critical alert was created. -/
theorem checkAndAlert_map_of_inactive (alertCooldown : String → Option Int)
    (now nowSet : Int) (d : SensorData)
    (h : ¬ CooldownWindowActive alertCooldown d.sensor_id now) :
    (checkAndAlert alertCooldown now nowSet d).alertCooldown =
      if ((collectAlerts d).filter (fun a => decide (a.severity = "critical"))).head?.isSome
      then Function.update alertCooldown d.sensor_id (some nowSet)
      else alertCooldown := by
  have hcd : cooldownActive (alertCooldown d.sensor_id) now = false := by
    cases hc : cooldownActive (alertCooldown d.sensor_id) now with
    | false => rfl
    | true => exact absurd ((cooldownActive_iff _ _ _).mp hc) h
  unfold checkAndAlert
  simp only [hcd, Bool.false_eq_true, if_false]
  cases ((collectAlerts d).filter (fun a => decide (a.severity = "critical"))).head? with
  | none => rfl
  | some first => rfl

/-- C13: `checkAndAlert` leaves the cooldown entry of every other sensor unchanged, and a
call that returns no critical alert leaves the whole cooldown map unchanged. -/
theorem checkAndAlert_frame (alertCooldown : String → Option Int) (now nowSet : Int)
    (d : SensorData) :
    (∀ key, key ≠ d.sensor_id →
        (checkAndAlert alertCooldown now nowSet d).alertCooldown key = alertCooldown key) ∧
      ((∀ a ∈ (checkAndAlert alertCooldown now nowSet d).alerts, a.severity ≠ "critical") →
        (checkAndAlert alertCooldown now nowSet d).alertCooldown = alertCooldown) := by
  by_cases hact : CooldownWindowActive alertCooldown d.sensor_id now
  · have h := (checkAndAlert_of_active alertCooldown now nowSet d hact).2.2
    rw [h]
    exact ⟨fun _ _ => rfl, fun _ => rfl⟩
  · rw [checkAndAlert_map_of_inactive alertCooldown now nowSet d hact,
      (checkAndAlert_of_inactive alertCooldown now nowSet d hact).1]
    cases hhead : ((collectAlerts d).filter (fun a => decide (a.severity = "critical"))).head? with
    | none => exact ⟨fun _ _ => rfl, fun _ => rfl⟩
    | some first =>
      simp only [Option.isSome_some, if_true]
      constructor
      · intro key hkey
        exact Function.update_noteq hkey _ _
      · intro hno
        have hmem : first ∈ (collectAlerts d).filter (fun a => decide (a.severity = "critical")) :=
          List.mem_of_mem_head? hhead
        obtain ⟨h1, h2⟩ := List.mem_filter.mp hmem
        exact absurd (of_decide_eq_true h2) (hno first h1)

/-! ### Rule engine -/

/-- In a list whose images under `f` are pairwise distinct, at most one element has a given
image. -/
theorem length_filter_le_one_of_nodup {α β : Type} [DecidableEq β] (f : α → β) (m : β)
    (l : List α) (h : (l.map f).Nodup) :
    (l.filter (fun e => decide (f e = m))).length ≤ 1 := by
  induction l with
  | nil => simp
  | cons a l ih =>
    simp only [List.map_cons, List.nodup_cons] at h
    by_cases ha : f a = m
    · have hnil : l.filter (fun e => decide (f e = m)) = [] := by
        rw [List.filter_eq_nil_iff]
        intro b hb hfb
        apply h.1
        rw [ha, ← of_decide_eq_true hfb]
        exact List.mem_map_of_mem f hb
      simp [List.filter_cons, ha, hnil]
    · simp only [List.filter_cons, ha, decide_False, Bool.false_eq_true, if_false]
      exact ih h.2

/-- The metrics of the findings of `evaluate` appear in the order humidity, temperature,
soil_ph, battery, each at most once. -/
theorem evaluate_metrics_sublist (d : SensorData) :
    ((RuleEngine.evaluate d).map (fun e => e.metric)).Sublist
      ["humidity", "temperature", "soil_ph", "battery"] := by
  unfold RuleEngine.evaluate
  cases d.battery_level with
  | none =>
    by_cases h1 : d.humidity < RuleEngine.rules.humidity.critical_low <;>
      by_cases h2 : d.humidity < RuleEngine.rules.humidity.warning_low <;>
      by_cases h3 : d.temperature > RuleEngine.rules.temperature.critical_high <;>
      by_cases h4 : d.soil_ph < RuleEngine.rules.soil_ph.critical_low <;>
      simp [h1, h2, h3, h4, RuleEngine.finding]
  | some level =>
    by_cases h1 : d.humidity < RuleEngine.rules.humidity.critical_low <;>
      by_cases h2 : d.humidity < RuleEngine.rules.humidity.warning_low <;>
      by_cases h3 : d.temperature > RuleEngine.rules.temperature.critical_high <;>
      by_cases h4 : d.soil_ph < RuleEngine.rules.soil_ph.critical_low <;>
      by_cases h5 : level < RuleEngine.rules.battery.critical <;>
      simp [h1, h2, h3, h4, h5, RuleEngine.finding]

/-- C15: the list returned by `RuleEngine.evaluate` holds at most one finding per metric;
for a humidity below 30 its only humidity finding is the critical one. -/
theorem evaluate_one_per_metric (d : SensorData) :
    (∀ metric, (findingsOf metric (RuleEngine.evaluate d)).length ≤ 1) ∧
      (d.humidity < 30 →
        findingsOf "humidity" (RuleEngine.evaluate d) =
          [RuleEngine.finding RuleEngine.humidity_critical_low "humidity" d.humidity 30] ∧
        RuleEngine.humidity_critical_low.priority = "CRITICAL") := by
  constructor
  · intro metric
    apply length_filter_le_one_of_nodup
    exact (evaluate_metrics_sublist d).nodup (by decide)
  · intro h1
    refine ⟨?_, rfl⟩
    unfold findingsOf RuleEngine.evaluate
    simp only [RuleEngine.rules]
    cases d.battery_level with
    | none =>
      by_cases h3 : d.temperature > 38 <;> by_cases h4 : d.soil_ph < 5.0 <;>
        simp [h1, h3, h4, RuleEngine.finding]
    | some level =>
      by_cases h3 : d.temperature > 38 <;> by_cases h4 : d.soil_ph < 5.0 <;>
        by_cases h5 : level < 15 <;>
        simp [h1, h3, h4, h5, RuleEngine.finding]

/-- C16 fails on the code: a reading with humidity 90, temperature 5 and pH 8.5, each beyond
a critical bound of `this.rules`, yields no finding at all, and a pH of 4.5, below the
critical bound 5.0, yields one finding whose priority is `WARNING`. -/
theorem evaluate_beyond_critical :
    RuleEngine.rules.humidity.critical_high < beyondCriticalReading.humidity ∧
      beyondCriticalReading.temperature < RuleEngine.rules.temperature.critical_low ∧
      RuleEngine.rules.soil_ph.critical_high < beyondCriticalReading.soil_ph ∧
      RuleEngine.evaluate beyondCriticalReading = [] ∧
      veryAcidReading.soil_ph < RuleEngine.rules.soil_ph.critical_low ∧
      (RuleEngine.evaluate veryAcidReading).map (fun e => (e.metric, e.priority)) =
        [("soil_ph", "WARNING")] := by
  refine ⟨?_, ?_, ?_, ?_, ?_, ?_⟩
  · norm_num [RuleEngine.rules, beyondCriticalReading]
  · norm_num [RuleEngine.rules, beyondCriticalReading]
  · norm_num [RuleEngine.rules, beyondCriticalReading]
  · have h1 : ¬ (90 : ℚ) < 30 := by norm_num
    have h2 : ¬ (90 : ℚ) < 40 := by norm_num
    have h3 : ¬ (5 : ℚ) > 38 := by norm_num
    have h4 : ¬ (8.5 : ℚ) < 5.0 := by norm_num
    simp [RuleEngine.evaluate, RuleEngine.rules, beyondCriticalReading, h1, h2, h3, h4]
  · norm_num [RuleEngine.rules, veryAcidReading]
  · have h1 : ¬ (50 : ℚ) < 30 := by norm_num
    have h2 : ¬ (50 : ℚ) < 40 := by norm_num
    have h3 : ¬ (20 : ℚ) > 38 := by norm_num
    have h4 : (4.5 : ℚ) < 5.0 := by norm_num
    simp [RuleEngine.evaluate, RuleEngine.rules, veryAcidReading, h1, h2, h3, h4,
      RuleEngine.finding, RuleEngine.soil_ph_critical_low]

/-! ### Threshold analyses -/

/-- The value `forecast[1]?.rain_chance || 0` is the rain chance of the next period. -/
theorem nextDayRain_eq (forecast : List ForecastDay) :
    ((forecast.get? 1).bind (fun day => day.rain_chance)).getD 0 = nextPeriodRain forecast := by
  unfold nextPeriodRain
  match forecast with
  | [] => rfl
  | [_] => rfl
  | _ :: day :: _ =>
    simp only [List.get?_cons_succ, List.get?_cons_zero, Option.some_bind]
    cases day.rain_chance <;> rfl

/-- C18: for an optimal range with `0 < min ≤ max`, `analyzeHumidity` returns exactly one
critical irrigation recommendation when `h < 0.7 * min`; one info irrigation recommendation
when `0.7 * min ≤ h < min` and the rain chance of the next period is above 50; one warning
irrigation recommendation when `0.7 * min ≤ h < min` and that rain chance is at most 50; one
critical drainage recommendation when `h ≥ min` and `h > 1.3 * max`; the empty list
otherwise. -/
theorem analyzeHumidity_cases (optimalRange : Range) (h : ℚ) (forecast : List ForecastDay)
    (hmin : 0 < optimalRange.min) (_hle : optimalRange.min ≤ optimalRange.max) :
    (h < 0.7 * optimalRange.min →
        IsSingle (analyzeHumidity h optimalRange forecast)
          "critical" "irrigation" "Sécheresse critique") ∧
      (0.7 * optimalRange.min ≤ h → h < optimalRange.min → nextPeriodRain forecast > 50 →
        IsSingle (analyzeHumidity h optimalRange forecast)
          "info" "irrigation" "Attendre la pluie") ∧
      (0.7 * optimalRange.min ≤ h → h < optimalRange.min → nextPeriodRain forecast ≤ 50 →
        IsSingle (analyzeHumidity h optimalRange forecast)
          "warning" "irrigation" "Irrigation nécessaire") ∧
      (optimalRange.min ≤ h → h > 1.3 * optimalRange.max →
        IsSingle (analyzeHumidity h optimalRange forecast)
          "critical" "drainage" "Excès d'eau") ∧
      (optimalRange.min ≤ h → h ≤ 1.3 * optimalRange.max →
        analyzeHumidity h optimalRange forecast = []) := by
  unfold analyzeHumidity
  simp only [nextDayRain_eq]
  refine ⟨?_, ?_, ?_, ?_, ?_⟩
  · intro h1
    have h1' : h < optimalRange.min * 0.7 := by linarith
    rw [if_pos h1']
    exact ⟨_, rfl, rfl, rfl, rfl⟩
  · intro h1 h2 h3
    have h1' : ¬ h < optimalRange.min * 0.7 := by linarith
    rw [if_neg h1', if_pos h2, if_pos h3]
    exact ⟨_, rfl, rfl, rfl, rfl⟩
  · intro h1 h2 h3
    have h1' : ¬ h < optimalRange.min * 0.7 := by linarith
    have h3' : ¬ nextPeriodRain forecast > 50 := not_lt.mpr h3
    rw [if_neg h1', if_pos h2, if_neg h3']
    exact ⟨_, rfl, rfl, rfl, rfl⟩
  · intro h1 h2
    have h1' : ¬ h < optimalRange.min * 0.7 := by
      have : optimalRange.min * 0.7 ≤ optimalRange.min := by linarith
      linarith
    have h2' : h > optimalRange.max * 1.3 := by linarith
    rw [if_neg h1', if_neg (not_lt.mpr h1), if_pos h2']
    exact ⟨_, rfl, rfl, rfl, rfl⟩
  · intro h1 h2
    have h1' : ¬ h < optimalRange.min * 0.7 := by
      have : optimalRange.min * 0.7 ≤ optimalRange.min := by linarith
      linarith
    have h2' : ¬ h > optimalRange.max * 1.3 := by linarith
    rw [if_neg h1', if_neg (not_lt.mpr h1), if_neg h2']

/-- C18 at a concrete input: the maize band 40 to 60, humidity 35 and a forecast whose second
day has a rain chance of 60. -/
theorem analyzeHumidity_cases_witness :
    nextPeriodRain rainTomorrow = 60 ∧
      IsSingle (analyzeHumidity 35 maizeKnowledge.optimalHumidity rainTomorrow)
        "info" "irrigation" "Attendre la pluie" := by
  have hr : nextPeriodRain rainTomorrow = 60 := rfl
  refine ⟨hr, (analyzeHumidity_cases maizeKnowledge.optimalHumidity 35 rainTomorrow
    (by norm_num [maizeKnowledge]) (by norm_num [maizeKnowledge])).2.1 ?_ ?_ ?_⟩
  · norm_num [maizeKnowledge]
  · norm_num [maizeKnowledge]
  · rw [hr]; norm_num

/-- The value `weather?.wind_speed || 0` is above 5 exactly when the snapshot and its wind
speed are present and the speed is above 5. -/
theorem windSpeed_gt_five_iff (weather : Option Weather) :
    (weather.bind (fun w => w.wind_speed)).getD 0 > 5 ↔ WindAboveFive weather := by
  unfold WindAboveFive
  cases weather with
  | none => simp
  | some w =>
    cases hw : w.wind_speed with
    | none => simp [hw]
    | some speed => simp [hw]

/-- C20: for an optimal range with `0 < min ≤ max`, `analyzeTemperature` returns exactly one
critical temperature recommendation when `t > 1.2 * max`, whose action relies on the natural
wind when the wind speed is above 5 and recommends artificial shading otherwise, also when
the weather snapshot or its wind speed is absent; one warning when `max < t ≤ 1.2 * max`;
one cold-stress warning when `t < 0.8 * min`; the empty list otherwise. -/
theorem analyzeTemperature_cases (optimalRange : Range) (t : ℚ) (weather : Option Weather)
    (hmin : 0 < optimalRange.min) (hle : optimalRange.min ≤ optimalRange.max) :
    (t > 1.2 * optimalRange.max → WindAboveFive weather →
        ∃ rec, analyzeTemperature t optimalRange weather = [rec] ∧ rec.type = "critical" ∧
          rec.category = "temperature" ∧
          rec.action = [.str "Irrigation rafraîchissante + vent naturel"]) ∧
      (t > 1.2 * optimalRange.max → ¬ WindAboveFive weather →
        ∃ rec, analyzeTemperature t optimalRange weather = [rec] ∧ rec.type = "critical" ∧
          rec.category = "temperature" ∧
          rec.action = [.str "Irrigation rafraîchissante + ombrage artificiel"]) ∧
      (¬ WindAboveFive none ∧ ∀ w : Weather, w.wind_speed = none → ¬ WindAboveFive (some w)) ∧
      (optimalRange.max < t → t ≤ 1.2 * optimalRange.max →
        IsSingle (analyzeTemperature t optimalRange weather)
          "warning" "temperature" "Température élevée") ∧
      (t < 0.8 * optimalRange.min →
        IsSingle (analyzeTemperature t optimalRange weather)
          "warning" "temperature" "Température basse") ∧
      (0.8 * optimalRange.min ≤ t → t ≤ optimalRange.max →
        analyzeTemperature t optimalRange weather = []) := by
  unfold analyzeTemperature
  refine ⟨?_, ?_, ?_, ?_, ?_, ?_⟩
  · intro h1 hw
    have h1' : t > optimalRange.max * 1.2 := by linarith
    have hw' := (windSpeed_gt_five_iff weather).mpr hw
    rw [if_pos h1']
    exact ⟨_, rfl, rfl, rfl, by rw [if_pos hw']⟩
  · intro h1 hw
    have h1' : t > optimalRange.max * 1.2 := by linarith
    have hw' : ¬ (weather.bind (fun w => w.wind_speed)).getD 0 > 5 :=
      fun h => hw ((windSpeed_gt_five_iff weather).mp h)
    rw [if_pos h1']
    exact ⟨_, rfl, rfl, rfl, by rw [if_neg hw']⟩
  · constructor
    · rintro ⟨w, speed, h, _⟩
      exact Option.noConfusion h
    · rintro w hw ⟨w', speed, h, hs, _⟩
      have hww : w = w' := Option.some.inj h
      rw [← hww, hw] at hs
      exact Option.noConfusion hs
  · intro h1 h2
    have h2' : ¬ t > optimalRange.max * 1.2 := by linarith
    rw [if_neg h2', if_pos h1]
    exact ⟨_, rfl, rfl, rfl, rfl⟩
  · intro h1
    have h1' : ¬ t > optimalRange.max * 1.2 := by linarith
    have h2' : ¬ t > optimalRange.max := by linarith
    have h3' : t < optimalRange.min * 0.8 := by linarith
    rw [if_neg h1', if_neg h2', if_pos h3']
    exact ⟨_, rfl, rfl, rfl, rfl⟩
  · intro h1 h2
    have h1' : ¬ t > optimalRange.max * 1.2 := by linarith
    have h2' : ¬ t > optimalRange.max := by linarith
    have h3' : ¬ t < optimalRange.min * 0.8 := by linarith
    rw [if_neg h1', if_neg h2', if_neg h3']

/-- C20 at a concrete input: the maize band 20 to 30, a temperature of 40 and no weather
snapshot. -/
theorem analyzeTemperature_cases_witness :
    ∃ rec, analyzeTemperature 40 maizeKnowledge.optimalTemperature none = [rec] ∧
      rec.type = "critical" ∧ rec.category = "temperature" ∧
      rec.action = [.str "Irrigation rafraîchissante + ombrage artificiel"] :=
  (analyzeTemperature_cases maizeKnowledge.optimalTemperature 40 none
    (by norm_num [maizeKnowledge]) (by norm_num [maizeKnowledge])).2.1
    (by norm_num [maizeKnowledge])
    (analyzeTemperature_cases maizeKnowledge.optimalTemperature 40 none
      (by norm_num [maizeKnowledge]) (by norm_num [maizeKnowledge])).2.2.1.1

/-- A band of a crop profile of the knowledge base has positive bounds. -/
theorem cropKnowledge_positive (cropType : String) (knowledge : CropKnowledge)
    (h : cropKnowledge cropType = some knowledge) :
    0 < knowledge.optimalHumidity.min ∧ 0 < knowledge.optimalHumidity.max ∧
      0 < knowledge.optimalTemperature.min ∧ 0 < knowledge.optimalTemperature.max := by
  unfold cropKnowledge at h
  split_ifs at h <;> (cases h; first
    | (simp only [riceKnowledge]; norm_num)
    | (simp only [maizeKnowledge]; norm_num)
    | (simp only [tomatoesKnowledge]; norm_num))

/-- C17: for a crop profile of the knowledge base and a reading whose humidity, temperature
and soil pH lie strictly between the optimal bounds of that profile, `analyzeHumidity`,
`analyzeTemperature` and `analyzePH` all return the empty list, for every forecast and
weather input. -/
theorem threshold_analyses_empty (cropType : String) (knowledge : CropKnowledge)
    (data : SensorData) (forecast : List ForecastDay) (weather : Option Weather)
    (hk : cropKnowledge cropType = some knowledge)
    (hH1 : knowledge.optimalHumidity.min < data.humidity)
    (hH2 : data.humidity < knowledge.optimalHumidity.max)
    (hT1 : knowledge.optimalTemperature.min < data.temperature)
    (hT2 : data.temperature < knowledge.optimalTemperature.max)
    (hP1 : knowledge.optimalPH.min < data.soil_ph)
    (hP2 : data.soil_ph < knowledge.optimalPH.max) :
    analyzeHumidity data.humidity knowledge.optimalHumidity forecast = [] ∧
      analyzeTemperature data.temperature knowledge.optimalTemperature weather = [] ∧
      analyzePH data.soil_ph knowledge.optimalPH = [] := by
  obtain ⟨p1, p2, p3, p4⟩ := cropKnowledge_positive cropType knowledge hk
  refine ⟨?_, ?_, ?_⟩
  · unfold analyzeHumidity
    have h1 : ¬ data.humidity < knowledge.optimalHumidity.min * 0.7 := by linarith
    have h2 : ¬ data.humidity < knowledge.optimalHumidity.min := by linarith
    have h3 : ¬ data.humidity > knowledge.optimalHumidity.max * 1.3 := by linarith
    simp only [h1, h2, h3, if_false]
  · unfold analyzeTemperature
    have h1 : ¬ data.temperature > knowledge.optimalTemperature.max * 1.2 := by linarith
    have h2 : ¬ data.temperature > knowledge.optimalTemperature.max := by linarith
    have h3 : ¬ data.temperature < knowledge.optimalTemperature.min * 0.8 := by linarith
    simp only [h1, h2, h3, if_false]
  · unfold analyzePH
    have h1 : ¬ data.soil_ph < knowledge.optimalPH.min := by linarith
    have h2 : ¬ data.soil_ph > knowledge.optimalPH.max := by linarith
    simp only [h1, h2, if_false]

/-- C17 at a concrete input: maize with humidity 50, temperature 25 and pH 6.5. -/
theorem threshold_analyses_empty_witness :
    analyzeHumidity (50 : ℚ) maizeKnowledge.optimalHumidity rainTomorrow = [] ∧
      analyzeTemperature (25 : ℚ) maizeKnowledge.optimalTemperature none = [] ∧
      analyzePH (6.5 : ℚ) maizeKnowledge.optimalPH = [] :=
  threshold_analyses_empty "maize" maizeKnowledge
    { sensor_id := "S1", humidity := 50, temperature := 25, soil_ph := 6.5 }
    rainTomorrow none (by simp [cropKnowledge])
    (by norm_num [maizeKnowledge]) (by norm_num [maizeKnowledge])
    (by norm_num [maizeKnowledge]) (by norm_num [maizeKnowledge])
    (by norm_num [maizeKnowledge]) (by norm_num [maizeKnowledge])

/-! ### Synthesis -/

/-- With a weather snapshot, `generateRecommendations` returns a list whose members are the
recommendations of the seven analyses. -/
theorem mem_generateRecommendations (latestData : SensorData)
    (historicalData : List SensorData) (w : Weather) (forecast : List ForecastDay)
    (cropType : String) (farmerProfile : Option FarmerProfile) :
    ∃ l, generateRecommendations latestData historicalData (some w) forecast cropType
        farmerProfile = some l ∧
      ∀ rec, rec ∈ l ↔
        (rec ∈ analyzeHumidity latestData.humidity
            ((cropKnowledge cropType).getD maizeKnowledge).optimalHumidity forecast ∨
          rec ∈ analyzeTemperature latestData.temperature
            ((cropKnowledge cropType).getD maizeKnowledge).optimalTemperature (some w) ∨
          rec ∈ analyzePH latestData.soil_ph
            ((cropKnowledge cropType).getD maizeKnowledge).optimalPH ∨
          rec ∈ analyzeWeather w forecast farmerProfile ∨
          rec ∈ analyzeTrends historicalData ∨
          rec ∈ getCropSpecificRecommendations cropType latestData ∨
          (historicalData.length ≥ 12 ∧
            generateIrrigationPlan historicalData forecast
              ((cropKnowledge cropType).getD maizeKnowledge) = some rec)) := by
  unfold generateRecommendations
  refine ⟨_, rfl, fun rec => ?_⟩
  unfold prioritizeRecommendations
  rw [(jsSort_perm prioritizeCompare _).mem_iff]
  by_cases hlen : historicalData.length ≥ 12
  · cases hplan : generateIrrigationPlan historicalData forecast
        ((cropKnowledge cropType).getD maizeKnowledge) with
    | none => simp [hlen, hplan, or_assoc]
    | some plan =>
      have hsymm : rec = plan ↔ plan = rec := eq_comm
      simp [hlen, hplan, or_assoc, hsymm]
  · simp [hlen, or_assoc]

/-- The recommendations of `analyzeTemperature` have the category `temperature`. -/
theorem analyzeTemperature_category (t : ℚ) (optimalRange : Range) (weather : Option Weather)
    (rec : Recommendation) (h : rec ∈ analyzeTemperature t optimalRange weather) :
    rec.category = "temperature" := by
  unfold analyzeTemperature at h
  split_ifs at h <;> simp only [List.mem_singleton, List.not_mem_nil] at h <;> rw [h]

/-- The recommendations of `analyzePH` have the category `soil`. -/
theorem analyzePH_category (ph : ℚ) (optimalRange : Range) (rec : Recommendation)
    (h : rec ∈ analyzePH ph optimalRange) : rec.category = "soil" := by
  unfold analyzePH at h
  split_ifs at h <;> simp only [List.mem_singleton, List.not_mem_nil] at h <;> rw [h]

/-- The recommendations of `analyzeWeather` have the category `weather`, or are of type
`info`. -/
theorem analyzeWeather_category (w : Weather) (forecast : List ForecastDay)
    (farmerProfile : Option FarmerProfile) (rec : Recommendation)
    (h : rec ∈ analyzeWeather w forecast farmerProfile) :
    rec.category = "weather" ∨ rec.type = "info" := by
  unfold analyzeWeather at h
  simp only [List.nil_append] at h
  cases hday : forecast.find? (fun day => optionGt day.rain_volume 20) with
  | none =>
    simp only [hday] at h
    split_ifs at h <;>
      simp only [List.mem_append, List.mem_singleton, List.not_mem_nil, or_false,
        false_or] at h
    all_goals first
      | (rcases h with h | h <;> rw [h] <;> simp)
      | (rw [h]; simp)
  | some day =>
    simp only [hday] at h
    split_ifs at h <;>
      simp only [List.mem_append, List.mem_singleton, List.not_mem_nil, or_false,
        false_or] at h
    all_goals first
      | (rcases h with (h | h) | h <;> rw [h] <;> simp)
      | (rcases h with h | h <;> rw [h] <;> simp)
      | (rw [h]; simp)

/-- The recommendations of `analyzeTrends` have the category `trend`. -/
theorem analyzeTrends_category (historicalData : List SensorData) (rec : Recommendation)
    (h : rec ∈ analyzeTrends historicalData) : rec.category = "trend" := by
  unfold analyzeTrends at h
  simp only [List.nil_append] at h
  split_ifs at h <;>
    simp only [List.mem_append, List.mem_singleton, List.not_mem_nil, or_false,
      false_or] at h
  all_goals first
    | (rcases h with h | h <;> rw [h])
    | rw [h]

/-- The recommendations of `getCropSpecificRecommendations` have the category `disease`. -/
theorem getCropSpecificRecommendations_category (cropType : String) (data : SensorData)
    (rec : Recommendation) (h : rec ∈ getCropSpecificRecommendations cropType data) :
    rec.category = "disease" := by
  unfold getCropSpecificRecommendations at h
  simp only [List.nil_append] at h
  cases hk : cropKnowledge cropType with
  | none => simp [hk] at h
  | some k =>
    simp only [hk] at h
    split_ifs at h <;>
      simp only [List.mem_append, List.mem_singleton, List.not_mem_nil, or_false,
        false_or] at h
    all_goals first
      | (rcases h with h | h <;> rw [h])
      | rw [h]

/-- The recommendation of `generateIrrigationPlan` has the category `planning`. -/
theorem generateIrrigationPlan_category (historicalData : List SensorData)
    (forecast : List ForecastDay) (knowledge : CropKnowledge) (rec : Recommendation)
    (h : generateIrrigationPlan historicalData forecast knowledge = some rec) :
    rec.category = "planning" := by
  unfold generateIrrigationPlan at h
  simp only at h
  split_ifs at h
  simp only [Option.some.injEq] at h
  rw [← h]

/-- Below the optimal minimum but not below 70% of it, with rain expected, the humidity
analysis is the single info recommendation to defer irrigation. -/
theorem analyzeHumidity_info (optimalRange : Range) (h : ℚ) (forecast : List ForecastDay)
    (hlow : 0.7 * optimalRange.min ≤ h) (hlt : h < optimalRange.min)
    (hrain : nextPeriodRain forecast > 50) :
    ∃ rec, analyzeHumidity h optimalRange forecast = [rec] ∧ rec.type = "info" ∧
      rec.category = "irrigation" ∧ rec.title = "Attendre la pluie" ∧
      rec.action = [.str "Reporter irrigation de 24h"] := by
  unfold analyzeHumidity
  simp only [nextDayRain_eq]
  have h1 : ¬ h < optimalRange.min * 0.7 := by linarith
  rw [if_neg h1, if_pos hlt, if_pos hrain]
  exact ⟨_, rfl, rfl, rfl, rfl, rfl⟩

/-- C19: through `generateRecommendations`, for a humidity in `[0.7 * min, min)` of the
profile the crop resolves to and a rain chance above 50 on the second forecast day, the list
returned contains the info irrigation recommendation to defer irrigation and no warning of
category irrigation. -/
theorem generateRecommendations_defer (latestData : SensorData)
    (historicalData : List SensorData) (w : Weather) (forecast : List ForecastDay)
    (cropType : String) (farmerProfile : Option FarmerProfile)
    (hlow : 0.7 * ((cropKnowledge cropType).getD maizeKnowledge).optimalHumidity.min ≤
      latestData.humidity)
    (hlt : latestData.humidity <
      ((cropKnowledge cropType).getD maizeKnowledge).optimalHumidity.min)
    (hrain : nextPeriodRain forecast > 50) :
    ∃ l, generateRecommendations latestData historicalData (some w) forecast cropType
        farmerProfile = some l ∧
      (∃ rec ∈ l, rec.type = "info" ∧ rec.category = "irrigation" ∧
        rec.title = "Attendre la pluie" ∧ rec.action = [.str "Reporter irrigation de 24h"]) ∧
      (∀ rec ∈ l, ¬ (rec.type = "warning" ∧ rec.category = "irrigation")) := by
  obtain ⟨l, hl, hmem⟩ := mem_generateRecommendations latestData historicalData w forecast
    cropType farmerProfile
  obtain ⟨defer, hdefer, h1, h2, h3, h4⟩ := analyzeHumidity_info _ _ forecast hlow hlt hrain
  refine ⟨l, hl, ⟨defer, ?_, h1, h2, h3, h4⟩, ?_⟩
  · rw [hmem, hdefer]
    exact Or.inl (List.mem_singleton.mpr rfl)
  · intro rec hrec ⟨htype, hcat⟩
    rw [hmem, hdefer] at hrec
    rcases hrec with h | h | h | h | h | h | ⟨_, h⟩
    · rw [List.mem_singleton.mp h, h1] at htype
      exact absurd htype (by decide)
    · rw [analyzeTemperature_category _ _ _ _ h] at hcat
      exact absurd hcat (by decide)
    · rw [analyzePH_category _ _ _ h] at hcat
      exact absurd hcat (by decide)
    · rcases analyzeWeather_category _ _ _ _ h with h' | h'
      · rw [h'] at hcat
        exact absurd hcat (by decide)
      · rw [h'] at htype
        exact absurd htype (by decide)
    · rw [analyzeTrends_category _ _ h] at hcat
      exact absurd hcat (by decide)
    · rw [getCropSpecificRecommendations_category _ _ _ h] at hcat
      exact absurd hcat (by decide)
    · rw [generateIrrigationPlan_category _ _ _ _ h] at hcat
      exact absurd hcat (by decide)

/-- C19 at the scenario of the specification: humidity 35 under the maize profile (optimal
minimum 40) and a forecast whose second day has a rain chance of 60. -/
theorem generateRecommendations_defer_witness :
    ∃ l, generateRecommendations lowHumidityReading [] (some { wind_speed := some 3 })
        rainTomorrow "maize" none = some l ∧
      (∃ rec ∈ l, rec.type = "info" ∧ rec.category = "irrigation" ∧
        rec.title = "Attendre la pluie" ∧ rec.action = [.str "Reporter irrigation de 24h"]) ∧
      (∀ rec ∈ l, ¬ (rec.type = "warning" ∧ rec.category = "irrigation")) := by
  have hk : (cropKnowledge "maize").getD maizeKnowledge = maizeKnowledge := by
    simp [cropKnowledge]
  have hr : nextPeriodRain rainTomorrow = 60 := rfl
  exact generateRecommendations_defer lowHumidityReading [] { wind_speed := some 3 }
    rainTomorrow "maize" none
    (by rw [hk]; norm_num [maizeKnowledge, lowHumidityReading])
    (by rw [hk]; norm_num [maizeKnowledge, lowHumidityReading])
    (by rw [hr]; norm_num)

/-! ### Permutation, crop rules, pH -/

/-- C30: the output of `prioritizeRecommendations` is a permutation of its input, with the
same length. -/
theorem prioritizeRecommendations_perm (x : List Recommendation) :
    (prioritizeRecommendations x).Perm x ∧
      (prioritizeRecommendations x).length = x.length :=
  ⟨jsSort_perm prioritizeCompare x, (jsSort_perm prioritizeCompare x).length_eq⟩

/-- C29: `getCropSpecificRecommendations` returns exactly one warning of category disease
when the crop is rice with humidity above 75 and temperature above 30, or tomatoes with
humidity above 70 and temperature above 25, and the empty list in every other case, so for
maize and for every crop outside the knowledge base. -/
theorem getCropSpecificRecommendations_cases (cropType : String) (data : SensorData) :
    (cropType = "rice" ∧ data.humidity > 75 ∧ data.temperature > 30 →
        IsSingle (getCropSpecificRecommendations cropType data)
          "warning" "disease" "Risque de pyriculariose") ∧
      (cropType = "tomatoes" ∧ data.humidity > 70 ∧ data.temperature > 25 →
        IsSingle (getCropSpecificRecommendations cropType data)
          "warning" "disease" "Risque de mildiou") ∧
      (¬ (cropType = "rice" ∧ data.humidity > 75 ∧ data.temperature > 30) →
        ¬ (cropType = "tomatoes" ∧ data.humidity > 70 ∧ data.temperature > 25) →
        getCropSpecificRecommendations cropType data = []) ∧
      getCropSpecificRecommendations "maize" data = [] ∧
      (cropKnowledge cropType = none → getCropSpecificRecommendations cropType data = []) := by
  refine ⟨?_, ?_, ?_, ?_, ?_⟩
  · intro h
    have hk : cropKnowledge cropType = some riceKnowledge := by simp [cropKnowledge, h.1]
    have h2 : ¬ (cropType = "tomatoes" ∧ data.humidity > 70 ∧ data.temperature > 25) := by
      rw [h.1]; simp
    unfold getCropSpecificRecommendations
    simp only [hk, if_pos h, if_neg h2, List.nil_append]
    exact ⟨_, rfl, rfl, rfl, rfl⟩
  · intro h
    have hk : cropKnowledge cropType = some tomatoesKnowledge := by
      simp [cropKnowledge, h.1]
    have h1 : ¬ (cropType = "rice" ∧ data.humidity > 75 ∧ data.temperature > 30) := by
      rw [h.1]; simp
    unfold getCropSpecificRecommendations
    simp only [hk, if_neg h1, if_pos h, List.nil_append]
    exact ⟨_, rfl, rfl, rfl, rfl⟩
  · intro h1 h2
    unfold getCropSpecificRecommendations
    cases cropKnowledge cropType with
    | none => rfl
    | some k => simp only [if_neg h1, if_neg h2]
  · unfold getCropSpecificRecommendations
    simp [cropKnowledge]
  · intro hk
    unfold getCropSpecificRecommendations
    simp only [hk]

/-- C23: `calculateTrend` returns 0 for a history of fewer than two readings, and for a
history whose most recent timestamp is not strictly later than its oldest. -/
theorem calculateTrend_degenerate (history : List SensorData) (field : SensorData → ℚ) :
    (history.length < 2 → calculateTrend history field = .num 0) ∧
      (∀ newest oldest, history.head? = some newest → history.getLast? = some oldest →
        newest.timestamp ≤ oldest.timestamp → calculateTrend history field = .num 0) := by
  constructor
  · intro h
    unfold calculateTrend
    rw [if_pos h]
  · intro newest oldest hhead hlast hts
    unfold calculateTrend
    by_cases hlen : history.length < 2
    · rw [if_pos hlen]
    · rw [if_neg hlen]
      simp only [hlast, hhead]
      have hnpos : ¬ ((newest.timestamp - oldest.timestamp : Int) : ℚ) / (1000 * 3600) > 0 := by
        rw [not_lt]
        apply div_nonpos_of_nonpos_of_nonneg
        · exact_mod_cast sub_nonpos.mpr hts
        · norm_num
      rw [if_neg hnpos]

/-- The value `farmerProfile?.recommendationSettings?.rainDelayIrrigation ?? true` is the
preference of the specification. -/
theorem irrigationDelay_eq (farmerProfile : Option FarmerProfile) :
    ((farmerProfile.bind (fun f => f.recommendationSettings)).bind
      (fun settings => settings.rainDelayIrrigation)).getD true =
      rainDelayEnabled farmerProfile := by
  unfold rainDelayEnabled
  cases farmerProfile with
  | none => rfl
  | some profile =>
    cases h1 : profile.recommendationSettings with
    | none => simp [h1]
    | some settings =>
      cases h2 : settings.rainDelayIrrigation with
      | none => simp [h1, h2]
      | some enabled => simp [h1, h2]

/-- C28: `analyzeWeather` returns exactly, in this order: the strong-wind warning iff the
wind speed is above 15; the info recommendation to suspend irrigation iff some forecast day
has a rain volume above 20 and the `rainDelayIrrigation` preference is enabled (also when the
profile or the setting is absent), reporting the first such day; and the dry-spell warning
iff at least 5 forecast days have a rain chance below 20. With the preference `false` the
suspend recommendation is never emitted. -/
theorem analyzeWeather_cases (w : Weather) (forecast : List ForecastDay)
    (farmerProfile : Option FarmerProfile) :
    (analyzeWeather w forecast farmerProfile).map summary =
        (if optionGt w.wind_speed 15 then [("warning", "weather", "Vents forts")] else []) ++
        (if (forecast.find? (fun day => optionGt day.rain_volume 20)).isSome ∧
            rainDelayEnabled farmerProfile = true
          then [("info", "irrigation", "Pluie abondante prévue")] else []) ++
        (if 5 ≤ (forecast.filter (fun day => optionLt day.rain_chance 20)).length
          then [("warning", "weather", "Période sèche prolongée")] else []) ∧
      (∀ rec ∈ analyzeWeather w forecast farmerProfile,
        rec.title = "Pluie abondante prévue" →
        ∃ day, forecast.find? (fun day => optionGt day.rain_volume 20) = some day ∧
          rec.data = [("day", .str day.day), ("rainVolume", .ofOption day.rain_volume)]) ∧
      (rainDelayEnabled noRainDelayProfile = false ∧
        (rainDelayEnabled farmerProfile = false →
          ∀ rec ∈ analyzeWeather w forecast farmerProfile,
            rec.title ≠ "Pluie abondante prévue")) ∧
      (rainDelayEnabled none = true ∧
        rainDelayEnabled (some { recommendationSettings := none }) = true ∧
        rainDelayEnabled
          (some { recommendationSettings := some { rainDelayIrrigation := none } }) = true) := by
  refine ⟨?_, ?_, ⟨rfl, ?_⟩, rfl, rfl, rfl⟩
  · unfold analyzeWeather
    simp only [irrigationDelay_eq, List.nil_append]
    cases hday : forecast.find? (fun day => optionGt day.rain_volume 20) with
    | none =>
      by_cases h1 : optionGt w.wind_speed 15 = true <;>
        by_cases h3 : 5 ≤ (forecast.filter (fun day => optionLt day.rain_chance 20)).length <;>
        simp [h1, h3, summary]
    | some day =>
      by_cases h1 : optionGt w.wind_speed 15 = true <;>
        by_cases h2 : rainDelayEnabled farmerProfile = true <;>
        by_cases h3 : 5 ≤ (forecast.filter (fun day => optionLt day.rain_chance 20)).length <;>
        simp [h1, h2, h3, summary]
  · intro rec hrec htitle
    unfold analyzeWeather at hrec
    simp only [irrigationDelay_eq, List.nil_append] at hrec
    cases hday : forecast.find? (fun day => optionGt day.rain_volume 20) with
    | none =>
      simp only [hday] at hrec
      split_ifs at hrec <;>
        simp only [List.mem_append, List.mem_singleton, List.not_mem_nil, or_false,
          false_or] at hrec
      all_goals first
        | (rcases hrec with h | h <;> subst h <;> simp at htitle)
        | (subst hrec; simp at htitle)
    | some day =>
      refine ⟨day, rfl, ?_⟩
      simp only [hday] at hrec
      split_ifs at hrec <;>
        simp only [List.mem_append, List.mem_singleton, List.not_mem_nil, or_false,
          false_or] at hrec
      all_goals first
        | (rcases hrec with (h | h) | h <;> subst h <;>
            first | rfl | (simp at htitle))
        | (rcases hrec with h | h <;> subst h <;>
            first | rfl | (simp at htitle))
        | (subst hrec; first | rfl | (simp at htitle))
  · intro hoff rec hrec htitle
    unfold analyzeWeather at hrec
    simp only [irrigationDelay_eq, List.nil_append, hoff, Bool.false_eq_true, if_false]
      at hrec
    cases hday : forecast.find? (fun day => optionGt day.rain_volume 20) with
    | none =>
      simp only [hday] at hrec
      split_ifs at hrec <;>
        simp only [List.mem_append, List.mem_singleton, List.not_mem_nil, or_false,
          false_or] at hrec
      all_goals first
        | (rcases hrec with h | h <;> subst h <;> simp at htitle)
        | (subst hrec; simp at htitle)
    | some day =>
      simp only [hday] at hrec
      split_ifs at hrec <;>
        simp only [List.mem_append, List.mem_singleton, List.not_mem_nil, or_false,
          false_or] at hrec
      all_goals first
        | (rcases hrec with h | h <;> subst h <;> simp at htitle)
        | (subst hrec; simp at htitle)

/-! ### The synthesized list -/

/-- With a weather snapshot, `generateRecommendations` returns the pushed recommendations,
sorted by `prioritizeRecommendations`. -/
theorem generateRecommendations_eq (latestData : SensorData)
    (historicalData : List SensorData) (w : Weather) (forecast : List ForecastDay)
    (cropType : String) (farmerProfile : Option FarmerProfile) :
    generateRecommendations latestData historicalData (some w) forecast cropType
        farmerProfile =
      some (prioritizeRecommendations
        (emittedRecommendations latestData historicalData w forecast cropType
          farmerProfile)) := by
  unfold generateRecommendations emittedRecommendations
  by_cases hlen : historicalData.length ≥ 12
  · cases hplan : generateIrrigationPlan historicalData forecast
        ((cropKnowledge cropType).getD maizeKnowledge) with
    | none => simp [hlen, hplan]
    | some plan => simp [hlen, hplan]
  · simp [hlen]

/-- Without a weather snapshot, `generateRecommendations` throws. -/
theorem generateRecommendations_none (latestData : SensorData)
    (historicalData : List SensorData) (forecast : List ForecastDay)
    (cropType : String) (farmerProfile : Option FarmerProfile) :
    generateRecommendations latestData historicalData none forecast cropType
        farmerProfile = none := by
  unfold generateRecommendations
  rfl

/-- A list in the order of `priorityOrdered` is in the order of the specification by
type. -/
theorem typeOrdered_of_priorityOrdered (a b : Recommendation) (h : priorityOrdered a b) :
    typeOrdered a b := by
  unfold priorityOrdered at h
  unfold typeOrdered
  refine ⟨?_, ?_, ?_⟩
  · rintro ⟨ha, hb⟩
    have h1 : specRank a = 2 := by simp [specRank, ha]
    have h2 : specRank b = 3 := by simp [specRank, hb]
    omega
  · rintro ⟨ha, hb | hb⟩
    · have h1 : specRank a = 1 := by simp [specRank, ha]
      have h2 : specRank b = 3 := by simp [specRank, hb]
      omega
    · have h1 : specRank a = 1 := by simp [specRank, ha]
      have h2 : specRank b = 2 := by simp [specRank, hb]
      omega
  · intro hab
    have h1 : specRank a = specRank b := by simp only [specRank, hab]
    omega

/-- C27: the list returned by `generateRecommendations` is a fixed point of
`prioritizeRecommendations`: every critical recommendation precedes every warning, every
warning precedes every info, and within one type the priorities do not increase. With a
weather snapshot a list is returned. -/
theorem generateRecommendations_prioritized (latestData : SensorData)
    (historicalData : List SensorData) (weather : Option Weather)
    (forecast : List ForecastDay) (cropType : String)
    (farmerProfile : Option FarmerProfile) :
    (∀ l, generateRecommendations latestData historicalData weather forecast cropType
          farmerProfile = some l →
        prioritizeRecommendations l = l ∧ l.Pairwise typeOrdered) ∧
      (∀ w, weather = some w →
        ∃ l, generateRecommendations latestData historicalData weather forecast cropType
          farmerProfile = some l) := by
  constructor
  · intro l hl
    cases weather with
    | none =>
      rw [generateRecommendations_none] at hl
      exact Option.noConfusion hl
    | some w =>
      rw [generateRecommendations_eq] at hl
      have hl' := (Option.some.inj hl).symm
      have hsorted := prioritizeRecommendations_pairwise
        (emittedRecommendations latestData historicalData w forecast cropType farmerProfile)
      rw [← hl'] at hsorted
      refine ⟨prioritizeRecommendations_of_pairwise l hsorted, ?_⟩
      refine hsorted.imp ?_
      intro a b hab
      exact typeOrdered_of_priorityOrdered a b ((prioritizeCompare_nonpos_iff a b).mp hab)
  · intro w hw
    rw [hw, generateRecommendations_eq]
    exact ⟨_, rfl⟩

end SmartAgriSense
